import Mathlib

/-!
# Rtc_Pcf8563: register codec, alarm/status state machine and formatting

A shallow embedding of `src/Rtc_Pcf8563.cpp`.

* A `byte` is a natural number below 256; every place where C++ truncates an
  `int` expression to `byte` is an explicit `% 256` (`toByte`).
* The PCF8563 is a file of 16 byte registers with an auto-incrementing
  register pointer.  A write transaction (`beginTransmission`, `send` ...,
  `endTransmission`) loads the pointer from its first byte and stores the
  remaining bytes at consecutive registers; `requestFrom` reads consecutive
  registers from the pointer.  Bus transactions always succeed.
* The driver object is the record `Rtc` of its cached fields and its two
  scratch character buffers.
* `Rtc_Pcf8563.h` is not part of the sources.  Register addresses, the alarm
  sentinel and the two top-bit masks are fixed by the specification; the
  remaining constants of the header are the fields of `Header`.
-/

namespace Rtc_Pcf8563

/-! ## The header -/

/-- Modelled from the spec: `Rtc_Pcf8563.h` is missing; register map entry
`0=ctrl/status1`. -/
def RTCC_STAT1_ADDR : Nat := 0x00

/-- Modelled from the spec: `Rtc_Pcf8563.h` is missing; register map entry
`1=ctrl/status2`. -/
def RTCC_STAT2_ADDR : Nat := 0x01

/-- Modelled from the spec: `Rtc_Pcf8563.h` is missing; register map entry
`2=seconds(+VL bit)`. -/
def RTCC_SEC_ADDR : Nat := 0x02

/-- Modelled from the spec: `Rtc_Pcf8563.h` is missing; register map entry
`5=day`. -/
def RTCC_DAY_ADDR : Nat := 0x05

/-- Modelled from the spec: `Rtc_Pcf8563.h` is missing; register map entry
`9=minute-alarm`. -/
def RTCC_ALRM_MIN_ADDR : Nat := 0x09

/-- Modelled from the spec: `Rtc_Pcf8563.h` is missing; register map entry
`13=square-wave control`. -/
def RTCC_SQW_ADDR : Nat := 0x0D

/-- Modelled from the spec: `Rtc_Pcf8563.h` is missing; "alarm-disabled
sentinel = 99 (API-level)". -/
def RTCC_NO_ALARM : Nat := 99

/-- Modelled from the spec: `Rtc_Pcf8563.h` is missing; the alarm-disable
flag is the "top bit of the byte" (`0x80`). -/
def RTCC_ALARM : Nat := 0x80

/-- Modelled from the spec: `Rtc_Pcf8563.h` is missing; the century bit is
the "top bit of the month register". -/
def RTCC_CENTURY_MASK : Nat := 0x80

/-- The constants of `Rtc_Pcf8563.h` whose values the specification does not
fix: the two status2 masks, the style selectors and the square-wave disable
code. -/
structure Header where
  RTCC_ALARM_AIE : Nat
  RTCC_ALARM_AF : Nat
  RTCC_TIME_HMS : Nat
  RTCC_TIME_HM : Nat
  RTCC_DATE_WORLD : Nat
  RTCC_DATE_ASIA : Nat
  RTCC_DATE_US : Nat
  SQW_DISABLE : Nat

/-- What the C++ compiler demands of a header: the `case` labels of one
`switch` are pairwise distinct. -/
structure Header.LabelsDistinct (H : Header) : Prop where
  time_labels : H.RTCC_TIME_HM ≠ H.RTCC_TIME_HMS
  asia_us : H.RTCC_DATE_ASIA ≠ H.RTCC_DATE_US
  asia_world : H.RTCC_DATE_ASIA ≠ H.RTCC_DATE_WORLD
  us_world : H.RTCC_DATE_US ≠ H.RTCC_DATE_WORLD

/-- The header of the PCF8563 data sheet layout: AIE is bit 1 and AF is bit 3
of control/status 2. -/
def pcf8563Header : Header where
  RTCC_ALARM_AIE := 0x02
  RTCC_ALARM_AF := 0x08
  RTCC_TIME_HMS := 0x01
  RTCC_TIME_HM := 0x02
  RTCC_DATE_WORLD := 0x01
  RTCC_DATE_ASIA := 0x02
  RTCC_DATE_US := 0x04
  SQW_DISABLE := 0x00

/-! ## Byte arithmetic -/

/-- Conversion of an `int` value to `byte` (`uint8_t`). -/
def toByte (x : Nat) : Nat := x % 256

/-- The compound assignment `x &= ~m` on a byte `x`: after integer promotion
`~m` has every bit above bit 7 set, so the low eight bits of the result are
those of `x` with the bits of `m` cleared. -/
def clearBits (x m : Nat) : Nat := x &&& (255 ^^^ (m % 256))

/-- The compound assignment `x |= m` on a byte `x`. -/
def setBits (x m : Nat) : Nat := toByte (x ||| m)

/-- Arduino's `constrain(amt, low, high)`:
`((amt)<(low)?(low):((amt)>(high)?(high):(amt)))`. -/
def constrain (amt low high : Nat) : Nat :=
  if amt < low then low else if amt > high then high else amt

/-- `byte Rtc_Pcf8563::decToBcd(byte val)`. -/
def decToBcd (val : Nat) : Nat := toByte ((val / 10 * 16) + (val % 10))

/-- `byte Rtc_Pcf8563::bcdToDec(byte val)`. -/
def bcdToDec (val : Nat) : Nat := toByte ((val / 16 * 10) + (val % 16))

/-! ## The two-wire bus and the chip behind it -/

/-- One bus transaction as the `Wire` library issues it. -/
inductive Txn where
  | transmit (bytes : List Nat)
  | request (count : Nat)
deriving DecidableEq

/-- The chip as seen from the bus: 16 registers, the register pointer, and
the transactions performed so far (oldest first). -/
structure Bus where
  regs : Nat → Nat
  ptr : Nat
  log : List Txn

/-- The chip stores one data byte at the register pointer and advances it. -/
def Bus.store (b : Bus) (v : Nat) : Bus :=
  { b with
    regs := fun i => if i = b.ptr % 16 then toByte v else b.regs i
    ptr := (b.ptr + 1) % 16 }

/-- The chip returns the byte at the register pointer and advances it. -/
def Bus.load (b : Bus) : Nat × Bus :=
  (toByte (b.regs (b.ptr % 16)), { b with ptr := (b.ptr + 1) % 16 })

/-- The chip's reaction to the bytes of one write transaction: the first byte
is the register address, the others are data. -/
def Bus.receive (b : Bus) : List Nat → Bus
  | [] => b
  | addr :: data => data.foldl Bus.store { b with ptr := toByte addr % 16 }

/-- `Wire.beginTransmission(Rtcc_Addr); Wire.send(..) ...; Wire.endTransmission()`
with the listed bytes sent in order. -/
def Wire.transmission (b : Bus) (bytes : List Nat) : Bus :=
  let b1 := b.receive bytes
  { b1 with log := b1.log ++ [Txn.transmit (bytes.map toByte)] }

/-- The chip's reaction to a read of `n` bytes. -/
def Bus.burst (b : Bus) : Nat → List Nat × Bus
  | 0 => ([], b)
  | n + 1 =>
    let r := b.load
    let rest := Bus.burst r.2 n
    (r.1 :: rest.1, rest.2)

/-- `Wire.requestFrom(Rtcc_Addr, n)`: the receive buffer and the bus
afterwards. -/
def Wire.requestFrom (b : Bus) (n : Nat) : List Nat × Bus :=
  let r := b.burst n
  (r.1, { r.2 with log := r.2.log ++ [Txn.request n] })

/-- The `i`-th `Wire.read()` / `Wire.receive()` after a `requestFrom`
(`-1`, as a byte, when the buffer is exhausted). -/
def Wire.read (rx : List Nat) (i : Nat) : Nat := rx.getD i 255

/-! ## The driver object -/

/-- The data members of `class Rtc_Pcf8563`. -/
structure Rtc where
  hour : Nat
  minute : Nat
  sec : Nat
  day : Nat
  weekday : Nat
  month : Nat
  year : Nat
  alarm_hour : Nat
  alarm_minute : Nat
  alarm_weekday : Nat
  alarm_day : Nat
  status1 : Nat
  status2 : Nat
  century : Nat
  strOut : List Nat
  strDate : List Nat

/-- A driver object together with the bus it talks to. -/
structure Dev where
  rtc : Rtc
  bus : Bus

/-- `void Rtc_Pcf8563::initClock()`. -/
def initClock (d : Dev) : Dev :=
  { d with
    bus := Wire.transmission d.bus
      [0x0,
       0x0, 0x0, 0x01, 0x01, 0x01, 0x01, 0x01, 0x01, 0x01,
       0x80, 0x80, 0x80, 0x80, 0x0, 0x0] }

/-- `void Rtc_Pcf8563::clearStatus()`. -/
def clearStatus (d : Dev) : Dev :=
  { d with bus := Wire.transmission d.bus [0x0, 0x0, 0x0] }

/-- `void Rtc_Pcf8563::setTime(byte hour, byte minute, byte sec)`. -/
def setTime (d : Dev) (hour minute sec : Nat) : Dev :=
  { d with
    bus := Wire.transmission d.bus
      [RTCC_SEC_ADDR, decToBcd sec, decToBcd minute, decToBcd hour] }

/-- `void Rtc_Pcf8563::setDate(byte day, byte weekday, byte mon, byte century, byte year)`. -/
def setDate (d : Dev) (day weekday mon century year : Nat) : Dev :=
  let month0 := decToBcd mon
  let month1 :=
    if century = 1 then setBits month0 RTCC_CENTURY_MASK
    else clearBits month0 RTCC_CENTURY_MASK
  { rtc := { d.rtc with month := month1 }
    bus := Wire.transmission d.bus
      [RTCC_DAY_ADDR, decToBcd day, decToBcd weekday, month1, decToBcd year] }

/-- `void Rtc_Pcf8563::enableAlarm()`. -/
def enableAlarm (H : Header) (d : Dev) : Dev :=
  let s0 := clearBits d.rtc.status2 H.RTCC_ALARM_AF
  let s1 := setBits s0 H.RTCC_ALARM_AIE
  { rtc := { d.rtc with status2 := s1 }
    bus := Wire.transmission d.bus [RTCC_STAT2_ADDR, s1] }

/-- `byte Rtc_Pcf8563::readStatus2()`: the byte returned and the state
afterwards. -/
def readStatus2 (d : Dev) : Nat × Dev :=
  let b1 := Wire.transmission d.bus [RTCC_STAT2_ADDR]
  let r := Wire.requestFrom b1 1
  (Wire.read r.1 0, { d with bus := r.2 })

/-- `boolean Rtc_Pcf8563::alarmEnabled()`. -/
def alarmEnabled (H : Header) (d : Dev) : Bool × Dev :=
  let r := readStatus2 d
  (r.1 &&& H.RTCC_ALARM_AIE != 0, r.2)

/-- `boolean Rtc_Pcf8563::alarmActive()`. -/
def alarmActive (H : Header) (d : Dev) : Bool × Dev :=
  let r := readStatus2 d
  (r.1 &&& H.RTCC_ALARM_AF != 0, r.2)

/-- One of the four blocks of `setAlarm` that turn an input into the byte to
send: `if (v < 99) { v = constrain(v, low, high); v = decToBcd(v);
v &= ~RTCC_ALARM; } else { v = 0x0; v |= RTCC_ALARM; }`. -/
def alarmByte (v low high : Nat) : Nat :=
  if v < 99 then clearBits (decToBcd (toByte (constrain v low high))) RTCC_ALARM
  else setBits 0x0 RTCC_ALARM

/-- `void Rtc_Pcf8563::setAlarm(byte min, byte hour, byte day, byte weekday)`. -/
def setAlarm (H : Header) (d : Dev) (min hour day weekday : Nat) : Dev :=
  let min1 := alarmByte min 0 59
  let hour1 := alarmByte hour 0 23
  let day1 := alarmByte day 1 31
  let weekday1 := alarmByte weekday 0 6
  let d1 := enableAlarm H d
  { d1 with
    bus := Wire.transmission d1.bus
      [RTCC_ALRM_MIN_ADDR, min1, hour1, day1, weekday1] }

/-- One of the four blocks of `getAlarm` that classify a byte read from the
chip: `if (B10000000 & x) x = RTCC_NO_ALARM; else x = bcdToDec(x & mask);`. -/
def alarmField (x mask : Nat) : Nat :=
  if 0x80 &&& x ≠ 0 then RTCC_NO_ALARM else bcdToDec (x &&& mask)

/-- `void Rtc_Pcf8563::getAlarm()`. -/
def getAlarm (d : Dev) : Dev :=
  let b1 := Wire.transmission d.bus [RTCC_ALRM_MIN_ADDR]
  let r := Wire.requestFrom b1 4
  { rtc := { d.rtc with
      alarm_minute := alarmField (Wire.read r.1 0) 0x7F
      alarm_hour := alarmField (Wire.read r.1 1) 0x3F
      alarm_day := alarmField (Wire.read r.1 2) 0x3F
      alarm_weekday := alarmField (Wire.read r.1 3) 0x07 }
    bus := r.2 }

/-- `void Rtc_Pcf8563::setSquareWave(byte frequency)`. -/
def setSquareWave (d : Dev) (frequency : Nat) : Dev :=
  { d with bus := Wire.transmission d.bus [RTCC_SQW_ADDR, frequency] }

/-- `void Rtc_Pcf8563::clearSquareWave()`. -/
def clearSquareWave (H : Header) (d : Dev) : Dev :=
  setSquareWave d H.SQW_DISABLE

/-- `void Rtc_Pcf8563::resetAlarm()`. -/
def resetAlarm (H : Header) (d : Dev) : Dev :=
  let s0 := clearBits d.rtc.status2 H.RTCC_ALARM_AF
  { rtc := { d.rtc with status2 := s0 }
    bus := Wire.transmission d.bus [RTCC_STAT2_ADDR, s0] }

/-- `void Rtc_Pcf8563::clearAlarm()`. -/
def clearAlarm (H : Header) (d : Dev) : Dev :=
  let s0 := clearBits d.rtc.status2 H.RTCC_ALARM_AF
  let s1 := clearBits s0 H.RTCC_ALARM_AIE
  { rtc := { d.rtc with status2 := s1 }
    bus := Wire.transmission d.bus [RTCC_STAT2_ADDR, s1] }

/-- `void Rtc_Pcf8563::getDate()`. -/
def getDate (d : Dev) : Dev :=
  let b1 := Wire.transmission d.bus [RTCC_DAY_ADDR]
  let r := Wire.requestFrom b1 4
  let month0 := Wire.read r.1 2
  { rtc := { d.rtc with
      day := bcdToDec (Wire.read r.1 0 &&& 0x3f)
      weekday := bcdToDec (Wire.read r.1 1 &&& 0x07)
      century := if month0 &&& RTCC_CENTURY_MASK ≠ 0 then 1 else 0
      month := bcdToDec (month0 &&& 0x1f)
      year := bcdToDec (Wire.read r.1 3) }
    bus := r.2 }

/-- `void Rtc_Pcf8563::getTime()`. -/
def getTime (d : Dev) : Dev :=
  let b1 := Wire.transmission d.bus [RTCC_STAT1_ADDR]
  let r := Wire.requestFrom b1 5
  { rtc := { d.rtc with
      status1 := Wire.read r.1 0
      status2 := Wire.read r.1 1
      sec := bcdToDec (Wire.read r.1 2 &&& 0x7f)
      minute := bcdToDec (Wire.read r.1 3 &&& 0x7f)
      hour := bcdToDec (Wire.read r.1 4 &&& 0x3f) }
    bus := r.2 }

/-- The character code stored by `buf[i] = '0' + e;` (`'0'` is 48). -/
def digitChar (e : Nat) : Nat := toByte (48 + e)

/-- The C string a returned `char*` denotes: the characters before the first
NUL of the buffer. -/
def cString (buf : List Nat) : String :=
  String.mk ((buf.takeWhile (fun c => c ≠ 0)).map Char.ofNat)

/-- `char* Rtc_Pcf8563::formatTime(byte style)`: the contents of `strOut`
are what the returned pointer refers to. -/
def formatTime (H : Header) (d : Dev) (style : Nat) : Dev :=
  let d1 := getTime d
  let hour := d1.rtc.hour
  let minute := d1.rtc.minute
  let sec := d1.rtc.sec
  let strOut := d1.rtc.strOut
  if style = H.RTCC_TIME_HM then
    let strOut := strOut.set 0 (digitChar (hour / 10))
    let strOut := strOut.set 1 (digitChar (hour % 10))
    let strOut := strOut.set 2 58
    let strOut := strOut.set 3 (digitChar (minute / 10))
    let strOut := strOut.set 4 (digitChar (minute % 10))
    let strOut := strOut.set 5 0
    { d1 with rtc := { d1.rtc with strOut := strOut } }
  else
    let strOut := strOut.set 0 (digitChar (hour / 10))
    let strOut := strOut.set 1 (digitChar (hour % 10))
    let strOut := strOut.set 2 58
    let strOut := strOut.set 3 (digitChar (minute / 10))
    let strOut := strOut.set 4 (digitChar (minute % 10))
    let strOut := strOut.set 5 58
    let strOut := strOut.set 6 (digitChar (sec / 10))
    let strOut := strOut.set 7 (digitChar (sec % 10))
    let strOut := strOut.set 8 0
    { d1 with rtc := { d1.rtc with strOut := strOut } }

/-- The two characters `formatDate` stores for the century:
`if (century == 1) { '1', '9' } else { '2', '0' }`. -/
def centuryChars (century : Nat) : Nat × Nat :=
  if century = 1 then (49, 57) else (50, 48)

/-- `char* Rtc_Pcf8563::formatDate(byte style)`: the contents of `strDate`
are what the returned pointer refers to. -/
def formatDate (H : Header) (d : Dev) (style : Nat) : Dev :=
  let d1 := getDate d
  let day := d1.rtc.day
  let month := d1.rtc.month
  let year := d1.rtc.year
  let cc := centuryChars d1.rtc.century
  let strDate := d1.rtc.strDate
  if style = H.RTCC_DATE_ASIA then
    let strDate := strDate.set 0 cc.1
    let strDate := strDate.set 1 cc.2
    let strDate := strDate.set 2 (digitChar (year / 10))
    let strDate := strDate.set 3 (digitChar (year % 10))
    let strDate := strDate.set 4 45
    let strDate := strDate.set 5 (digitChar (month / 10))
    let strDate := strDate.set 6 (digitChar (month % 10))
    let strDate := strDate.set 7 45
    let strDate := strDate.set 8 (digitChar (day / 10))
    let strDate := strDate.set 9 (digitChar (day % 10))
    let strDate := strDate.set 10 0
    { d1 with rtc := { d1.rtc with strDate := strDate } }
  else if style = H.RTCC_DATE_US then
    let strDate := strDate.set 0 (digitChar (month / 10))
    let strDate := strDate.set 1 (digitChar (month % 10))
    let strDate := strDate.set 2 47
    let strDate := strDate.set 3 (digitChar (day / 10))
    let strDate := strDate.set 4 (digitChar (day % 10))
    let strDate := strDate.set 5 47
    let strDate := strDate.set 6 cc.1
    let strDate := strDate.set 7 cc.2
    let strDate := strDate.set 8 (digitChar (year / 10))
    let strDate := strDate.set 9 (digitChar (year % 10))
    let strDate := strDate.set 10 0
    { d1 with rtc := { d1.rtc with strDate := strDate } }
  else
    let strDate := strDate.set 0 (digitChar (day / 10))
    let strDate := strDate.set 1 (digitChar (day % 10))
    let strDate := strDate.set 2 45
    let strDate := strDate.set 3 (digitChar (month / 10))
    let strDate := strDate.set 4 (digitChar (month % 10))
    let strDate := strDate.set 5 45
    let strDate := strDate.set 6 cc.1
    let strDate := strDate.set 7 cc.2
    let strDate := strDate.set 8 (digitChar (year / 10))
    let strDate := strDate.set 9 (digitChar (year % 10))
    let strDate := strDate.set 10 0
    { d1 with rtc := { d1.rtc with strDate := strDate } }

/-- `byte Rtc_Pcf8563::getSecond()`. -/
def getSecond (d : Dev) : Nat × Dev := (d.rtc.sec, d)

/-- `byte Rtc_Pcf8563::getMinute()`. -/
def getMinute (d : Dev) : Nat × Dev := (d.rtc.minute, d)

/-- `byte Rtc_Pcf8563::getHour()`. -/
def getHour (d : Dev) : Nat × Dev :=
  let d1 := getTime d
  (d1.rtc.hour, d1)

/-- `byte Rtc_Pcf8563::getAlarmMinute()`. -/
def getAlarmMinute (d : Dev) : Nat × Dev := (d.rtc.alarm_minute, d)

/-- `byte Rtc_Pcf8563::getAlarmHour()`. -/
def getAlarmHour (d : Dev) : Nat × Dev := (d.rtc.alarm_hour, d)

/-- `byte Rtc_Pcf8563::getAlarmDay()`. -/
def getAlarmDay (d : Dev) : Nat × Dev := (d.rtc.alarm_day, d)

/-- `byte Rtc_Pcf8563::getAlarmWeekday()`. -/
def getAlarmWeekday (d : Dev) : Nat × Dev := (d.rtc.alarm_weekday, d)

/-- `byte Rtc_Pcf8563::getDay()`. -/
def getDay (d : Dev) : Nat × Dev := (d.rtc.day, d)

/-- `byte Rtc_Pcf8563::getMonth()`. -/
def getMonth (d : Dev) : Nat × Dev := (d.rtc.month, d)

/-- `byte Rtc_Pcf8563::getYear()`. -/
def getYear (d : Dev) : Nat × Dev := (d.rtc.year, d)

/-- `byte Rtc_Pcf8563::getWeekday()`. -/
def getWeekday (d : Dev) : Nat × Dev := (d.rtc.weekday, d)

/-- `byte Rtc_Pcf8563::getStatus1()`. -/
def getStatus1 (d : Dev) : Nat × Dev := (d.rtc.status1, d)

/-- `byte Rtc_Pcf8563::getStatus2()`. -/
def getStatus2 (d : Dev) : Nat × Dev := (d.rtc.status2, d)

/-! ## A concrete device for evaluating the operations -/

/-- A driver object with all cached fields zero and zeroed scratch buffers of
9 and 11 characters. -/
def rtc0 : Rtc where
  hour := 0
  minute := 0
  sec := 0
  day := 0
  weekday := 0
  month := 0
  year := 0
  alarm_hour := 0
  alarm_minute := 0
  alarm_weekday := 0
  alarm_day := 0
  status1 := 0
  status2 := 0
  century := 0
  strOut := List.replicate 9 0
  strDate := List.replicate 11 0

/-- A bus whose chip holds the listed register bytes (missing ones are 0),
with an empty transaction log. -/
def busOf (bytes : List Nat) : Bus where
  regs := fun i => bytes.getD i 0
  ptr := 0
  log := []

/-- The device made of `rtc0` and a chip holding the listed register bytes. -/
def devOf (bytes : List Nat) : Dev where
  rtc := rtc0
  bus := busOf bytes

/-- A device whose cached status2 is stale: the chip held `0x11` in status2,
`getTime` cached it, and `clearStatus` then zeroed the register. -/
def staleDev : Dev := clearStatus (getTime (devOf [0, 0x11]))

/-! ## Reference functions written from the specification -/

/-- Clamping of an input to a field's valid range, as the specification words
it ("the input clamped to range"). -/
def clampToRange (v low high : Nat) : Nat := max low (min v high)

/-- The two-digit zero-padded decimal of a number below 100, as the
specification words it for the formatted fields. -/
def twoDigit (n : Nat) : String :=
  if n < 10 then "0" ++ toString n else toString n

/-- The century digit pair, as the specification words it: `"19"` if the
century flag is 1 and `"20"` otherwise. -/
def centuryText (century : Nat) : String := if century = 1 then "19" else "20"

/-! ## Shared lemmas: the bytes of `setAlarm` and what the chip holds -/

theorem alarmByte_lt (v low high : Nat) : alarmByte v low high < 256 := by
  unfold alarmByte clearBits setBits toByte
  split
  · exact lt_of_le_of_lt Nat.and_le_right (by decide)
  · exact Nat.mod_lt _ (by decide)

theorem alarmByte_disabled (v low high : Nat) (h : 99 ≤ v) :
    alarmByte v low high = 0x80 := by
  unfold alarmByte
  rw [if_neg (by omega)]
  decide

theorem alarmByte_minute_armed :
    ∀ v < 99, alarmByte v 0 59 = decToBcd (clampToRange v 0 59) ∧
      alarmByte v 0 59 &&& 0x80 = 0 := by
  decide

theorem alarmByte_hour_armed :
    ∀ v < 99, alarmByte v 0 23 = decToBcd (clampToRange v 0 23) ∧
      alarmByte v 0 23 &&& 0x80 = 0 := by
  decide

theorem alarmByte_day_armed :
    ∀ v < 99, alarmByte v 1 31 = decToBcd (clampToRange v 1 31) ∧
      alarmByte v 1 31 &&& 0x80 = 0 := by
  decide

theorem alarmByte_weekday_armed :
    ∀ v < 99, alarmByte v 0 6 = decToBcd (clampToRange v 0 6) ∧
      alarmByte v 0 6 &&& 0x80 = 0 := by
  decide

/-- The alarm registers after `setAlarm` hold the four bytes computed from
the inputs. -/
theorem setAlarm_regs (H : Header) (d : Dev) (min hour day weekday : Nat) :
    (setAlarm H d min hour day weekday).bus.regs 9 = alarmByte min 0 59 ∧
    (setAlarm H d min hour day weekday).bus.regs 10 = alarmByte hour 0 23 ∧
    (setAlarm H d min hour day weekday).bus.regs 11 = alarmByte day 1 31 ∧
    (setAlarm H d min hour day weekday).bus.regs 12 = alarmByte weekday 0 6 := by
  simp [setAlarm, enableAlarm, Wire.transmission, Bus.receive, Bus.store,
    RTCC_ALRM_MIN_ADDR, RTCC_STAT2_ADDR, toByte, Nat.mod_eq_of_lt (alarmByte_lt _ _ _)]

/-- What `getAlarm` caches is the classification of the four alarm registers. -/
theorem getAlarm_fields (d : Dev) :
    (getAlarm d).rtc.alarm_minute = alarmField (toByte (d.bus.regs 9)) 0x7F ∧
    (getAlarm d).rtc.alarm_hour = alarmField (toByte (d.bus.regs 10)) 0x3F ∧
    (getAlarm d).rtc.alarm_day = alarmField (toByte (d.bus.regs 11)) 0x3F ∧
    (getAlarm d).rtc.alarm_weekday = alarmField (toByte (d.bus.regs 12)) 0x07 := by
  simp [getAlarm, Wire.requestFrom, Bus.burst, Bus.load, Wire.read, Wire.transmission,
    Bus.receive, RTCC_ALRM_MIN_ADDR, toByte]

/-- What `getDate` caches is the decoding of the four date registers. -/
theorem getDate_fields (d : Dev) :
    (getDate d).rtc.day = bcdToDec (toByte (d.bus.regs 5) &&& 0x3f) ∧
    (getDate d).rtc.weekday = bcdToDec (toByte (d.bus.regs 6) &&& 0x07) ∧
    (getDate d).rtc.century =
      (if toByte (d.bus.regs 7) &&& RTCC_CENTURY_MASK ≠ 0 then 1 else 0) ∧
    (getDate d).rtc.month = bcdToDec (toByte (d.bus.regs 7) &&& 0x1f) ∧
    (getDate d).rtc.year = bcdToDec (toByte (d.bus.regs 8)) := by
  simp [getDate, Wire.requestFrom, Bus.burst, Bus.load, Wire.read, Wire.transmission,
    Bus.receive, RTCC_DAY_ADDR, toByte]

/-- The month byte `setDate` computes, as a function of its inputs. -/
theorem setDate_month_reg (d : Dev) (day weekday mon century year : Nat) :
    (setDate d day weekday mon century year).bus.regs 7 =
      toByte (if century = 1 then setBits (decToBcd mon) RTCC_CENTURY_MASK
        else clearBits (decToBcd mon) RTCC_CENTURY_MASK) := by
  simp [setDate, Wire.transmission, Bus.receive, Bus.store, RTCC_DAY_ADDR, toByte]

theorem alarm_minute_back :
    ∀ v < 100, v ≤ 59 ∨ v = 99 → alarmField (toByte (alarmByte v 0 59)) 0x7F = v := by
  decide

theorem alarm_hour_back :
    ∀ v < 100, v ≤ 23 ∨ v = 99 → alarmField (toByte (alarmByte v 0 23)) 0x3F = v := by
  decide

theorem alarm_day_back :
    ∀ v < 100, (1 ≤ v ∧ v ≤ 31) ∨ v = 99 →
      alarmField (toByte (alarmByte v 1 31)) 0x3F = v := by
  decide

theorem alarm_weekday_back :
    ∀ v < 100, v ≤ 6 ∨ v = 99 → alarmField (toByte (alarmByte v 0 6)) 0x07 = v := by
  decide

theorem month_century_back :
    ∀ m < 13, 1 ≤ m → ∀ c < 2,
      toByte (if c = 1 then setBits (decToBcd m) RTCC_CENTURY_MASK
        else clearBits (decToBcd m) RTCC_CENTURY_MASK)
        = decToBcd m + (if c = 1 then 0x80 else 0) ∧
      bcdToDec (toByte (decToBcd m + (if c = 1 then 0x80 else 0)) &&& 0x1f) = m ∧
      (if toByte (decToBcd m + (if c = 1 then 0x80 else 0)) &&& RTCC_CENTURY_MASK ≠ 0
        then 1 else 0) = c := by
  decide

/-! ## Shared lemmas: bits of the status byte -/

theorem clearBits_testBit (x m i : Nat) :
    (clearBits x m).testBit i = (x.testBit i && (decide (i < 8) && !m.testBit i)) := by
  have h255 : (255 : Nat) = 2 ^ 8 - 1 := by norm_num
  have h256 : (256 : Nat) = 2 ^ 8 := by norm_num
  unfold clearBits
  rw [Nat.testBit_and, Nat.testBit_xor, h255, h256, Nat.testBit_two_pow_sub_one,
    Nat.testBit_mod_two_pow]
  by_cases h : i < 8 <;> simp [h]

theorem setBits_testBit (x m i : Nat) :
    (setBits x m).testBit i = (decide (i < 8) && (x.testBit i || m.testBit i)) := by
  have h256 : (256 : Nat) = 2 ^ 8 := by norm_num
  unfold setBits toByte
  rw [h256, Nat.testBit_mod_two_pow, Nat.testBit_or]

theorem clearBits_lt (x m : Nat) : clearBits x m < 256 :=
  lt_of_le_of_lt Nat.and_le_right
    (lt_of_le_of_lt
      (Nat.le_of_lt_succ (Nat.xor_lt_two_pow (n := 8) (by decide) (Nat.mod_lt _ (by decide))))
      (by decide))

theorem setBits_lt (x m : Nat) : setBits x m < 256 := Nat.mod_lt _ (by decide)

/-- A byte-sized mask has no bit at position 8 or above. -/
theorem byte_testBit_high (m i : Nat) (hm : m < 256) (hi : ¬ i < 8) :
    m.testBit i = false :=
  Nat.testBit_lt_two_pow (lt_of_lt_of_le hm (by
    calc 256 = 2 ^ 8 := by norm_num
      _ ≤ 2 ^ i := Nat.pow_le_pow_right (by decide) (by omega)))

/-- Clearing the bits of `m` leaves none of them set. -/
theorem clearBits_and_self (x m : Nat) : clearBits x m &&& m = 0 := by
  apply Nat.eq_of_testBit_eq
  intro i
  simp only [clearBits_testBit, Nat.testBit_and, Nat.zero_testBit]
  cases x.testBit i <;> cases m.testBit i <;> cases decide (i < 8) <;> rfl

/-- Clearing further bits keeps cleared bits clear. -/
theorem clearBits_clearBits_and (x m k : Nat) : clearBits (clearBits x m) k &&& m = 0 := by
  apply Nat.eq_of_testBit_eq
  intro i
  simp only [clearBits_testBit, Nat.testBit_and, Nat.zero_testBit]
  cases x.testBit i <;> cases m.testBit i <;> cases k.testBit i <;>
    cases decide (i < 8) <;> rfl

/-- Clearing `af`, setting `aie` and clearing `af` again leaves `aie` set when
the two masks are disjoint. -/
theorem enable_reset_keeps (s aie af : Nat) (h1 : aie < 256) (h2 : aie &&& af = 0) :
    clearBits (setBits (clearBits s af) aie) af &&& aie = aie := by
  apply Nat.eq_of_testBit_eq
  intro i
  have h3 : (aie &&& af).testBit i = false := by rw [h2]; exact Nat.zero_testBit i
  rw [Nat.testBit_and] at h3
  simp only [clearBits_testBit, setBits_testBit, Nat.testBit_and]
  by_cases h8 : i < 8
  · revert h3; simp only [h8]
    cases s.testBit i <;> cases aie.testBit i <;> cases af.testBit i <;> simp
  · simp [byte_testBit_high aie i h1 h8]

/-- Outside the two masks `enableAlarm` keeps the bits of the byte it starts
from. -/
theorem enable_other_bits (s aie af : Nat) :
    clearBits (setBits (clearBits s af) aie) (aie ||| af) = clearBits s (aie ||| af) := by
  apply Nat.eq_of_testBit_eq
  intro i
  simp only [clearBits_testBit, setBits_testBit, Nat.testBit_or]
  cases s.testBit i <;> cases aie.testBit i <;> cases af.testBit i <;>
    cases decide (i < 8) <;> rfl

/-- Outside the two masks `resetAlarm` keeps the bits of the byte it starts
from. -/
theorem reset_other_bits (s aie af : Nat) :
    clearBits (clearBits s af) (aie ||| af) = clearBits s (aie ||| af) := by
  apply Nat.eq_of_testBit_eq
  intro i
  simp only [clearBits_testBit, Nat.testBit_or]
  cases s.testBit i <;> cases aie.testBit i <;> cases af.testBit i <;>
    cases decide (i < 8) <;> rfl

/-- Outside the two masks `clearAlarm` keeps the bits of the byte it starts
from. -/
theorem clear_other_bits (s aie af : Nat) :
    clearBits (clearBits (clearBits s af) aie) (aie ||| af) = clearBits s (aie ||| af) := by
  apply Nat.eq_of_testBit_eq
  intro i
  simp only [clearBits_testBit, Nat.testBit_or]
  cases s.testBit i <;> cases aie.testBit i <;> cases af.testBit i <;>
    cases decide (i < 8) <;> rfl

/-- The three status2 writers store their new cached byte in register 1 and
log that write last. -/
theorem enableAlarm_write (H : Header) (d : Dev) :
    (enableAlarm H d).rtc.status2 =
      setBits (clearBits d.rtc.status2 H.RTCC_ALARM_AF) H.RTCC_ALARM_AIE ∧
    (enableAlarm H d).bus.regs 1 = (enableAlarm H d).rtc.status2 ∧
    (enableAlarm H d).bus.log.getLast? =
      some (Txn.transmit [0x01, (enableAlarm H d).rtc.status2]) := by
  simp [enableAlarm, Wire.transmission, Bus.receive, Bus.store, RTCC_STAT2_ADDR, toByte,
    Nat.mod_eq_of_lt (setBits_lt _ _)]

theorem resetAlarm_write (H : Header) (d : Dev) :
    (resetAlarm H d).rtc.status2 = clearBits d.rtc.status2 H.RTCC_ALARM_AF ∧
    (resetAlarm H d).bus.regs 1 = (resetAlarm H d).rtc.status2 ∧
    (resetAlarm H d).bus.log.getLast? =
      some (Txn.transmit [0x01, (resetAlarm H d).rtc.status2]) := by
  simp [resetAlarm, Wire.transmission, Bus.receive, Bus.store, RTCC_STAT2_ADDR, toByte,
    Nat.mod_eq_of_lt (clearBits_lt _ _)]

theorem clearAlarm_write (H : Header) (d : Dev) :
    (clearAlarm H d).rtc.status2 =
      clearBits (clearBits d.rtc.status2 H.RTCC_ALARM_AF) H.RTCC_ALARM_AIE ∧
    (clearAlarm H d).bus.regs 1 = (clearAlarm H d).rtc.status2 ∧
    (clearAlarm H d).bus.log.getLast? =
      some (Txn.transmit [0x01, (clearAlarm H d).rtc.status2]) := by
  simp [clearAlarm, Wire.transmission, Bus.receive, Bus.store, RTCC_STAT2_ADDR, toByte,
    Nat.mod_eq_of_lt (clearBits_lt _ _)]

/-- The four alarm registers after `initClock`. -/
theorem initClock_alarm_regs (d : Dev) :
    (initClock d).bus.regs 9 = 0x80 ∧ (initClock d).bus.regs 10 = 0x80 ∧
    (initClock d).bus.regs 11 = 0x80 ∧ (initClock d).bus.regs 12 = 0x80 := by
  simp [initClock, Wire.transmission, Bus.receive, Bus.store, toByte]

/-! ## Shared lemmas: scratch buffers and digits -/

theorem toByte_lt (x : Nat) : toByte x < 256 := Nat.mod_lt _ (by decide)

theorem twoDigit_eq : ∀ n < 100, twoDigit n =
    String.mk [Char.ofNat (digitChar (n / 10)), Char.ofNat (digitChar (n % 10))] := by
  decide

theorem digitChar_ne_zero (e : Nat) (h : e < 10) : digitChar e ≠ 0 := by
  unfold digitChar toByte
  omega

theorem centuryChars_ne_zero (c : Nat) :
    (centuryChars c).1 ≠ 0 ∧ (centuryChars c).2 ≠ 0 := by
  unfold centuryChars
  split <;> decide

set_option maxRecDepth 100000 in
theorem decoded_3f_le : ∀ x < 256, bcdToDec (x &&& 0x3f) ≤ 99 := by decide

set_option maxRecDepth 100000 in
theorem decoded_1f_le : ∀ x < 256, bcdToDec (x &&& 0x1f) ≤ 99 := by decide

set_option maxRecDepth 100000 in
theorem decoded_7f_le : ∀ x < 256, bcdToDec (x &&& 0x7f) ≤ 99 := by decide

/-- The eleven stores of one `formatDate` branch fill the front of the
buffer. -/
theorem set_chain11 (buf : List Nat) (h : 11 ≤ buf.length)
    (c0 c1 c2 c3 c4 c5 c6 c7 c8 c9 c10 : Nat) :
    ((((((((((buf.set 0 c0).set 1 c1).set 2 c2).set 3 c3).set 4 c4).set 5 c5).set 6 c6).set
      7 c7).set 8 c8).set 9 c9).set 10 c10
      = [c0, c1, c2, c3, c4, c5, c6, c7, c8, c9, c10] ++ buf.drop 11 := by
  rcases buf with _ | ⟨a0, _ | ⟨a1, _ | ⟨a2, _ | ⟨a3, _ | ⟨a4, _ | ⟨a5, _ | ⟨a6, _ | ⟨a7,
    _ | ⟨a8, _ | ⟨a9, _ | ⟨a10, rest⟩⟩⟩⟩⟩⟩⟩⟩⟩⟩⟩ <;> simp at h ⊢

/-- The nine stores of the `HH:MM:SS` branch fill the front of the buffer. -/
theorem set_chain9 (buf : List Nat) (h : 9 ≤ buf.length)
    (c0 c1 c2 c3 c4 c5 c6 c7 c8 : Nat) :
    ((((((((buf.set 0 c0).set 1 c1).set 2 c2).set 3 c3).set 4 c4).set 5 c5).set 6 c6).set
      7 c7).set 8 c8
      = [c0, c1, c2, c3, c4, c5, c6, c7, c8] ++ buf.drop 9 := by
  rcases buf with _ | ⟨a0, _ | ⟨a1, _ | ⟨a2, _ | ⟨a3, _ | ⟨a4, _ | ⟨a5, _ | ⟨a6, _ | ⟨a7,
    _ | ⟨a8, rest⟩⟩⟩⟩⟩⟩⟩⟩⟩ <;> simp at h ⊢

/-- The six stores of the `HH:MM` branch fill the front of the buffer. -/
theorem set_chain6 (buf : List Nat) (h : 6 ≤ buf.length) (c0 c1 c2 c3 c4 c5 : Nat) :
    (((((buf.set 0 c0).set 1 c1).set 2 c2).set 3 c3).set 4 c4).set 5 c5
      = [c0, c1, c2, c3, c4, c5] ++ buf.drop 6 := by
  rcases buf with _ | ⟨a0, _ | ⟨a1, _ | ⟨a2, _ | ⟨a3, _ | ⟨a4, _ | ⟨a5, rest⟩⟩⟩⟩⟩⟩ <;>
    simp at h ⊢

/-- A buffer holding non-NUL characters followed by a NUL denotes exactly
those characters. -/
theorem cString_terminated (l rest : List Nat) (h : ∀ c ∈ l, c ≠ 0) :
    cString (l ++ 0 :: rest) = String.mk (l.map Char.ofNat) := by
  have tw : (l ++ 0 :: rest).takeWhile (fun c => decide (c ≠ 0)) = l := by
    induction l with
    | nil => simp [List.takeWhile]
    | cons a t ih =>
      have ha : a ≠ 0 := h a (List.mem_cons_self a t)
      have iht := ih (fun c hc => h c (List.mem_cons_of_mem a hc))
      rw [List.cons_append, List.takeWhile_cons_of_pos (by simpa using ha), iht]
  unfold cString
  rw [tw]

/-- The buffer `formatDate` leaves, by branch of its `switch`. -/
theorem formatDate_strDate (H : Header) (d : Dev) (style : Nat)
    (h : 11 ≤ d.rtc.strDate.length) :
    (formatDate H d style).rtc.strDate =
      (if style = H.RTCC_DATE_ASIA then
        [(centuryChars (getDate d).rtc.century).1, (centuryChars (getDate d).rtc.century).2,
          digitChar ((getDate d).rtc.year / 10), digitChar ((getDate d).rtc.year % 10), 45,
          digitChar ((getDate d).rtc.month / 10), digitChar ((getDate d).rtc.month % 10), 45,
          digitChar ((getDate d).rtc.day / 10), digitChar ((getDate d).rtc.day % 10)]
      else if style = H.RTCC_DATE_US then
        [digitChar ((getDate d).rtc.month / 10), digitChar ((getDate d).rtc.month % 10), 47,
          digitChar ((getDate d).rtc.day / 10), digitChar ((getDate d).rtc.day % 10), 47,
          (centuryChars (getDate d).rtc.century).1, (centuryChars (getDate d).rtc.century).2,
          digitChar ((getDate d).rtc.year / 10), digitChar ((getDate d).rtc.year % 10)]
      else
        [digitChar ((getDate d).rtc.day / 10), digitChar ((getDate d).rtc.day % 10), 45,
          digitChar ((getDate d).rtc.month / 10), digitChar ((getDate d).rtc.month % 10), 45,
          (centuryChars (getDate d).rtc.century).1, (centuryChars (getDate d).rtc.century).2,
          digitChar ((getDate d).rtc.year / 10), digitChar ((getDate d).rtc.year % 10)])
      ++ 0 :: d.rtc.strDate.drop 11 := by
  have hb : 11 ≤ (getDate d).rtc.strDate.length := h
  have hs : (getDate d).rtc.strDate.drop 11 = d.rtc.strDate.drop 11 := rfl
  unfold formatDate
  split_ifs <;> simp only [] <;> rw [set_chain11 _ hb, hs] <;> rfl

/-- The buffer `formatTime` leaves, by branch of its `switch`. -/
theorem formatTime_strOut (H : Header) (d : Dev) (style : Nat)
    (h : 9 ≤ d.rtc.strOut.length) :
    (formatTime H d style).rtc.strOut =
      (if style = H.RTCC_TIME_HM then
        [digitChar ((getTime d).rtc.hour / 10), digitChar ((getTime d).rtc.hour % 10), 58,
          digitChar ((getTime d).rtc.minute / 10), digitChar ((getTime d).rtc.minute % 10)]
          ++ 0 :: d.rtc.strOut.drop 6
      else
        [digitChar ((getTime d).rtc.hour / 10), digitChar ((getTime d).rtc.hour % 10), 58,
          digitChar ((getTime d).rtc.minute / 10), digitChar ((getTime d).rtc.minute % 10), 58,
          digitChar ((getTime d).rtc.sec / 10), digitChar ((getTime d).rtc.sec % 10)]
          ++ 0 :: d.rtc.strOut.drop 9) := by
  have hb9 : 9 ≤ (getTime d).rtc.strOut.length := h
  have hb6 : 6 ≤ (getTime d).rtc.strOut.length := le_trans (by decide) h
  have hs9 : (getTime d).rtc.strOut.drop 9 = d.rtc.strOut.drop 9 := rfl
  have hs6 : (getTime d).rtc.strOut.drop 6 = d.rtc.strOut.drop 6 := rfl
  unfold formatTime
  split_ifs
  · simp only []
    rw [set_chain6 _ hb6, hs6]
    rfl
  · simp only []
    rw [set_chain9 _ hb9, hs9]
    rfl

/-- The decoded date fields `getDate` caches from masked registers are below
100. -/
theorem getDate_day_month_le (d : Dev) :
    (getDate d).rtc.day ≤ 99 ∧ (getDate d).rtc.month ≤ 99 := by
  obtain ⟨gd, _, _, gm, _⟩ := getDate_fields d
  rw [gd, gm]
  exact ⟨decoded_3f_le _ (toByte_lt _), decoded_1f_le _ (toByte_lt _)⟩

/-- What `getTime` caches is the decoding of the first five registers. -/
theorem getTime_fields (d : Dev) :
    (getTime d).rtc.status1 = toByte (d.bus.regs 0) ∧
    (getTime d).rtc.status2 = toByte (d.bus.regs 1) ∧
    (getTime d).rtc.sec = bcdToDec (toByte (d.bus.regs 2) &&& 0x7f) ∧
    (getTime d).rtc.minute = bcdToDec (toByte (d.bus.regs 3) &&& 0x7f) ∧
    (getTime d).rtc.hour = bcdToDec (toByte (d.bus.regs 4) &&& 0x3f) := by
  simp [getTime, Wire.requestFrom, Bus.burst, Bus.load, Wire.read, Wire.transmission,
    Bus.receive, RTCC_STAT1_ADDR, toByte]

/-- The decoded time fields `getTime` caches are below 100. -/
theorem getTime_fields_le (d : Dev) :
    (getTime d).rtc.hour ≤ 99 ∧ (getTime d).rtc.minute ≤ 99 ∧ (getTime d).rtc.sec ≤ 99 := by
  obtain ⟨_, _, gs, gm, gh⟩ := getTime_fields d
  rw [gs, gm, gh]
  exact ⟨decoded_3f_le _ (toByte_lt _), decoded_7f_le _ (toByte_lt _),
    decoded_7f_le _ (toByte_lt _)⟩

/-- The ten characters of the ASIA style spell `CCYY-MM-DD`. -/
theorem asia_text (c y m dd : Nat) (hy : y ≤ 99) (hm : m ≤ 99) (hd : dd ≤ 99) :
    String.mk ([(centuryChars c).1, (centuryChars c).2,
      digitChar (y / 10), digitChar (y % 10), 45,
      digitChar (m / 10), digitChar (m % 10), 45,
      digitChar (dd / 10), digitChar (dd % 10)].map Char.ofNat) =
    centuryText c ++ twoDigit y ++ "-" ++ twoDigit m ++ "-" ++ twoDigit dd := by
  rw [twoDigit_eq y (by omega), twoDigit_eq m (by omega), twoDigit_eq dd (by omega)]
  unfold centuryText centuryChars
  split <;> rfl

/-- The ten characters of the US style spell `MM/DD/CCYY`. -/
theorem us_text (c y m dd : Nat) (hy : y ≤ 99) (hm : m ≤ 99) (hd : dd ≤ 99) :
    String.mk ([digitChar (m / 10), digitChar (m % 10), 47,
      digitChar (dd / 10), digitChar (dd % 10), 47,
      (centuryChars c).1, (centuryChars c).2,
      digitChar (y / 10), digitChar (y % 10)].map Char.ofNat) =
    twoDigit m ++ "/" ++ twoDigit dd ++ "/" ++ centuryText c ++ twoDigit y := by
  rw [twoDigit_eq y (by omega), twoDigit_eq m (by omega), twoDigit_eq dd (by omega)]
  unfold centuryText centuryChars
  split <;> rfl

/-- The ten characters of the WORLD style spell `DD-MM-CCYY`. -/
theorem world_text (c y m dd : Nat) (hy : y ≤ 99) (hm : m ≤ 99) (hd : dd ≤ 99) :
    String.mk ([digitChar (dd / 10), digitChar (dd % 10), 45,
      digitChar (m / 10), digitChar (m % 10), 45,
      (centuryChars c).1, (centuryChars c).2,
      digitChar (y / 10), digitChar (y % 10)].map Char.ofNat) =
    twoDigit dd ++ "-" ++ twoDigit m ++ "-" ++ centuryText c ++ twoDigit y := by
  rw [twoDigit_eq y (by omega), twoDigit_eq m (by omega), twoDigit_eq dd (by omega)]
  unfold centuryText centuryChars
  split <;> rfl

/-- The five characters of the HM style spell `HH:MM`. -/
theorem hm_text (h m : Nat) (hh : h ≤ 99) (hm : m ≤ 99) :
    String.mk ([digitChar (h / 10), digitChar (h % 10), 58,
      digitChar (m / 10), digitChar (m % 10)].map Char.ofNat) =
    twoDigit h ++ ":" ++ twoDigit m := by
  rw [twoDigit_eq h (by omega), twoDigit_eq m (by omega)]
  rfl

/-- The eight characters of the HMS style spell `HH:MM:SS`. -/
theorem hms_text (h m s : Nat) (hh : h ≤ 99) (hm : m ≤ 99) (hs : s ≤ 99) :
    String.mk ([digitChar (h / 10), digitChar (h % 10), 58,
      digitChar (m / 10), digitChar (m % 10), 58,
      digitChar (s / 10), digitChar (s % 10)].map Char.ofNat) =
    twoDigit h ++ ":" ++ twoDigit m ++ ":" ++ twoDigit s := by
  rw [twoDigit_eq h (by omega), twoDigit_eq m (by omega), twoDigit_eq s (by omega)]
  rfl

/-! ## Shared lemmas: transactions and frames -/

/-- Setting `aie` after clearing `af` leaves every bit of a byte-sized `aie`
set. -/
theorem enable_sets_aie (s aie af : Nat) (h1 : aie < 256) :
    setBits (clearBits s af) aie &&& aie = aie := by
  apply Nat.eq_of_testBit_eq
  intro i
  simp only [clearBits_testBit, setBits_testBit, Nat.testBit_and]
  by_cases h8 : i < 8
  · simp only [h8]
    cases s.testBit i <;> cases aie.testBit i <;> cases af.testBit i <;> simp
  · simp [byte_testBit_high aie i h1 h8]

/-- Setting `aie` after clearing `af` leaves `af` clear when the masks are
disjoint. -/
theorem enable_clears_af (s aie af : Nat) (h2 : aie &&& af = 0) :
    setBits (clearBits s af) aie &&& af = 0 := by
  apply Nat.eq_of_testBit_eq
  intro i
  have h3 : (aie &&& af).testBit i = false := by rw [h2]; exact Nat.zero_testBit i
  rw [Nat.testBit_and] at h3
  simp only [clearBits_testBit, setBits_testBit, Nat.testBit_and, Nat.zero_testBit]
  revert h3
  cases s.testBit i <;> cases aie.testBit i <;> cases af.testBit i <;>
    cases decide (i < 8) <;> simp

/-- The cached status2, register 1 and the transaction log after `setAlarm`. -/
theorem setAlarm_effect (H : Header) (d : Dev) (min hour day weekday : Nat) :
    (setAlarm H d min hour day weekday).rtc.status2 =
      setBits (clearBits d.rtc.status2 H.RTCC_ALARM_AF) H.RTCC_ALARM_AIE ∧
    (setAlarm H d min hour day weekday).bus.regs 1 =
      (setAlarm H d min hour day weekday).rtc.status2 ∧
    (setAlarm H d min hour day weekday).bus.log = d.bus.log ++
      [Txn.transmit [0x01, (setAlarm H d min hour day weekday).rtc.status2],
       Txn.transmit [0x09, alarmByte min 0 59, alarmByte hour 0 23, alarmByte day 1 31,
         alarmByte weekday 0 6]] := by
  simp [setAlarm, enableAlarm, Wire.transmission, Bus.receive, Bus.store,
    RTCC_ALRM_MIN_ADDR, RTCC_STAT2_ADDR, toByte, Nat.mod_eq_of_lt (alarmByte_lt _ _ _),
    Nat.mod_eq_of_lt (setBits_lt _ _)]

/-- The byte `readStatus2` returns and what it leaves untouched. -/
theorem readStatus2_effect (d : Dev) :
    (readStatus2 d).1 = toByte (d.bus.regs 1) ∧
    (readStatus2 d).2.rtc = d.rtc ∧
    (readStatus2 d).2.bus.regs = d.bus.regs ∧
    (readStatus2 d).2.bus.log = d.bus.log ++ [Txn.transmit [0x01], Txn.request 1] := by
  simp [readStatus2, Wire.requestFrom, Bus.burst, Bus.load, Wire.read, Wire.transmission,
    Bus.receive, RTCC_STAT2_ADDR, toByte]

/-- The registers, cache and log after `setTime`. -/
theorem setTime_effect (d : Dev) (hour minute sec : Nat) :
    (setTime d hour minute sec).rtc = d.rtc ∧
    (setTime d hour minute sec).bus.regs 2 = decToBcd sec ∧
    (setTime d hour minute sec).bus.regs 3 = decToBcd minute ∧
    (setTime d hour minute sec).bus.regs 4 = decToBcd hour ∧
    (setTime d hour minute sec).bus.regs 0 = d.bus.regs 0 ∧
    (setTime d hour minute sec).bus.regs 1 = d.bus.regs 1 ∧
    (∀ i, (setTime d hour minute sec).bus.regs (i + 5) = d.bus.regs (i + 5)) ∧
    (setTime d hour minute sec).bus.log = d.bus.log ++
      [Txn.transmit [0x02, decToBcd sec, decToBcd minute, decToBcd hour]] := by
  have hb : ∀ v, decToBcd v % 256 = decToBcd v := fun v => Nat.mod_eq_of_lt (toByte_lt _)
  simp [setTime, Wire.transmission, Bus.receive, Bus.store, RTCC_SEC_ADDR, toByte, hb]

/-- The log after `getTime`: the pointer write and the 5-byte read. -/
theorem getTime_effect (d : Dev) :
    (getTime d).bus.regs = d.bus.regs ∧
    (getTime d).bus.log = d.bus.log ++ [Txn.transmit [0x00], Txn.request 5] := by
  simp [getTime, Wire.requestFrom, Bus.burst, Bus.load, Wire.transmission,
    Bus.receive, RTCC_STAT1_ADDR, toByte]

/-! ## Shared lemmas: wire bytes, masks and round trips -/

/-- An alarm byte is the disabled pattern or the encoding of a value in the
field's range with the top bit clear, given what the armed branch computes. -/
theorem alarmByte_wire_state (v low high : Nat) (hrange : low ≤ high)
    (harmed : v < 99 → alarmByte v low high = decToBcd (clampToRange v low high) ∧
      alarmByte v low high &&& 0x80 = 0) :
    alarmByte v low high = 0x80 ∨
      (alarmByte v low high &&& 0x80 = 0 ∧
        ∃ w, low ≤ w ∧ w ≤ high ∧ alarmByte v low high = decToBcd w) := by
  by_cases h : v < 99
  · obtain ⟨e, t⟩ := harmed h
    refine Or.inr ⟨t, clampToRange v low high, ?_, ?_, e⟩
    · exact le_max_left _ _
    · exact max_le hrange (min_le_right _ _)
  · exact Or.inl (alarmByte_disabled v low high (by omega))

/-- Masking a register value read as a byte with a byte-sized mask is masking
the register value. -/
theorem toByte_and (x m : Nat) (hm : m < 256) : toByte x &&& m = x &&& m := by
  have h256 : (256 : Nat) = 2 ^ 8 := by norm_num
  apply Nat.eq_of_testBit_eq
  intro i
  unfold toByte
  rw [Nat.testBit_and, Nat.testBit_and, h256, Nat.testBit_mod_two_pow]
  by_cases h8 : i < 8
  · simp [h8]
  · simp [byte_testBit_high m i hm h8]

/-- Two values that agree under a mask agree under every sub-mask. -/
theorem and_agree_sub (a b m k : Nat) (h : a &&& m = b &&& m) (hk : m &&& k = k) :
    a &&& k = b &&& k := by
  have ha : a &&& k = (a &&& m) &&& k := by rw [Nat.and_assoc, hk]
  have hb : b &&& k = (b &&& m) &&& k := by rw [Nat.and_assoc, hk]
  rw [ha, hb, h]

theorem time_field_back :
    ∀ v < 60, bcdToDec (toByte (decToBcd v) &&& 0x7f) = v := by
  decide

theorem hour_field_back :
    ∀ v < 24, bcdToDec (toByte (decToBcd v) &&& 0x3f) = v := by
  decide

theorem day_field_back :
    ∀ v < 32, bcdToDec (toByte (decToBcd v) &&& 0x3f) = v := by
  decide

theorem weekday_field_back :
    ∀ v < 7, bcdToDec (toByte (decToBcd v) &&& 0x07) = v := by
  decide

theorem year_field_back :
    ∀ v < 100, bcdToDec (toByte (decToBcd v)) = v := by
  decide

/-- The registers, cache and log after `setDate`. -/
theorem setDate_effect (d : Dev) (day weekday mon century year : Nat) :
    (setDate d day weekday mon century year).bus.regs 5 = decToBcd day ∧
    (setDate d day weekday mon century year).bus.regs 6 = decToBcd weekday ∧
    (setDate d day weekday mon century year).bus.regs 7 =
      (setDate d day weekday mon century year).rtc.month ∧
    (setDate d day weekday mon century year).bus.regs 8 = decToBcd year ∧
    (setDate d day weekday mon century year).bus.regs 0 = d.bus.regs 0 ∧
    (setDate d day weekday mon century year).bus.regs 1 = d.bus.regs 1 ∧
    (setDate d day weekday mon century year).bus.regs 2 = d.bus.regs 2 ∧
    (setDate d day weekday mon century year).bus.regs 3 = d.bus.regs 3 ∧
    (setDate d day weekday mon century year).bus.regs 4 = d.bus.regs 4 ∧
    (∀ i, (setDate d day weekday mon century year).bus.regs (i + 9) = d.bus.regs (i + 9)) ∧
    (setDate d day weekday mon century year).bus.log = d.bus.log ++
      [Txn.transmit [0x05, decToBcd day, decToBcd weekday,
        (setDate d day weekday mon century year).rtc.month, decToBcd year]] := by
  have hb : ∀ v, decToBcd v % 256 = decToBcd v := fun v => Nat.mod_eq_of_lt (toByte_lt _)
  have hm : (if century = 1 then setBits (decToBcd mon) RTCC_CENTURY_MASK
      else clearBits (decToBcd mon) RTCC_CENTURY_MASK) % 256 =
      (if century = 1 then setBits (decToBcd mon) RTCC_CENTURY_MASK
      else clearBits (decToBcd mon) RTCC_CENTURY_MASK) := by
    split
    · exact Nat.mod_eq_of_lt (setBits_lt _ _)
    · exact Nat.mod_eq_of_lt (clearBits_lt _ _)
  simp [setDate, Wire.transmission, Bus.receive, Bus.store, RTCC_DAY_ADDR, toByte, hb, hm]

/-- The cached fields `setDate` changes and keeps. -/
theorem setDate_cache (d : Dev) (day weekday mon century year : Nat) :
    (setDate d day weekday mon century year).rtc.month =
      (if century = 1 then setBits (decToBcd mon) RTCC_CENTURY_MASK
        else clearBits (decToBcd mon) RTCC_CENTURY_MASK) ∧
    (setDate d day weekday mon century year).rtc.day = d.rtc.day ∧
    (setDate d day weekday mon century year).rtc.weekday = d.rtc.weekday ∧
    (setDate d day weekday mon century year).rtc.century = d.rtc.century ∧
    (setDate d day weekday mon century year).rtc.year = d.rtc.year :=
  ⟨rfl, rfl, rfl, rfl, rfl⟩

set_option maxRecDepth 100000 in
/-- Setting or clearing the top bit of a byte, in arithmetic. -/
theorem top_bit_forms :
    ∀ x < 256, setBits x RTCC_CENTURY_MASK = x % 128 + 128 ∧
      clearBits x RTCC_CENTURY_MASK = x % 128 := by
  decide

set_option maxRecDepth 100000 in
/-- The wire month of a byte input equals the input only for inputs up to 9
with the top bit clear. -/
theorem wire_month_eq_iff :
    ∀ mon < 256, decToBcd mon % 128 + 128 ≠ mon ∧
      (decToBcd mon % 128 = mon ↔ mon ≤ 9) := by
  decide

set_option maxRecDepth 100000 in
theorem decoded_7f_le85 : ∀ x < 256, bcdToDec (x &&& 0x7f) ≤ 85 := by decide

set_option maxRecDepth 100000 in
theorem decoded_3f_le45 : ∀ x < 256, bcdToDec (x &&& 0x3f) ≤ 45 := by decide

/-- The character stored for a quotient or remainder below 10 is a decimal
digit. -/
theorem digitChar_isDigit : ∀ e < 10, (Char.ofNat (digitChar e)).isDigit = true := by
  decide

/-! ## C1: BCD round trip -/

/-- C1: for every byte `v` with `0 <= v <= 99`, decoding the BCD encoding of
`v` gives `v` back, both functions computed in 8-bit unsigned arithmetic. -/
theorem bcd_round_trip (v : Nat) (hv : v ≤ 99) : bcdToDec (decToBcd v) = v := by
  have all : ∀ w < 100, bcdToDec (decToBcd w) = w := by decide
  exact all v (by omega)

/-- C1 at `v = 59`: the encoding is `0x59` and decodes to 59. -/
theorem bcd_round_trip_witness :
    59 ≤ 99 ∧ decToBcd 59 = 0x59 ∧ bcdToDec (decToBcd 59) = 59 :=
  ⟨by decide, by decide, bcd_round_trip 59 (by decide)⟩


/-! ## C2: alarm clamping and classification -/

/-- C2, counterexample: `setAlarm(min=120, ...)` writes the disabled pattern
`0x80` to the minute-alarm register, not `decToBcd(59) = 0x59`, because the
guard of the armed branch is `min < 99`. -/
theorem setAlarm_minute_120_is_disabled :
    (setAlarm pcf8563Header (devOf []) 120 0 1 0).bus.regs 9 = 0x80 ∧
    (setAlarm pcf8563Header (devOf []) 120 0 1 0).bus.regs 9 ≠ decToBcd 59 := by
  decide

/-- C2, amended: each of the four `setAlarm` inputs below 99 is armed, that
is clamped to the field's range and BCD-encoded, and each input of 99 or more
gives the disabled pattern `0x80`; the top bit of the byte written is clear
exactly for the inputs below 99. -/
theorem setAlarm_classifies_below_99 (H : Header) (d : Dev)
    (min hour day weekday : Nat) :
    ((setAlarm H d min hour day weekday).bus.regs 9 =
        (if min < 99 then decToBcd (clampToRange min 0 59) else 0x80) ∧
      ((setAlarm H d min hour day weekday).bus.regs 9 &&& 0x80 = 0 ↔ min < 99)) ∧
    ((setAlarm H d min hour day weekday).bus.regs 10 =
        (if hour < 99 then decToBcd (clampToRange hour 0 23) else 0x80) ∧
      ((setAlarm H d min hour day weekday).bus.regs 10 &&& 0x80 = 0 ↔ hour < 99)) ∧
    ((setAlarm H d min hour day weekday).bus.regs 11 =
        (if day < 99 then decToBcd (clampToRange day 1 31) else 0x80) ∧
      ((setAlarm H d min hour day weekday).bus.regs 11 &&& 0x80 = 0 ↔ day < 99)) ∧
    ((setAlarm H d min hour day weekday).bus.regs 12 =
        (if weekday < 99 then decToBcd (clampToRange weekday 0 6) else 0x80) ∧
      ((setAlarm H d min hour day weekday).bus.regs 12 &&& 0x80 = 0 ↔ weekday < 99)) := by
  obtain ⟨h9, h10, h11, h12⟩ := setAlarm_regs H d min hour day weekday
  rw [h9, h10, h11, h12]
  refine ⟨?_, ?_, ?_, ?_⟩
  · by_cases h : min < 99
    · obtain ⟨e, t⟩ := alarmByte_minute_armed min h
      exact ⟨by rw [if_pos h]; exact e, ⟨fun _ => h, fun _ => t⟩⟩
    · simp [h, alarmByte_disabled min 0 59 (by omega)]
  · by_cases h : hour < 99
    · obtain ⟨e, t⟩ := alarmByte_hour_armed hour h
      exact ⟨by rw [if_pos h]; exact e, ⟨fun _ => h, fun _ => t⟩⟩
    · simp [h, alarmByte_disabled hour 0 23 (by omega)]
  · by_cases h : day < 99
    · obtain ⟨e, t⟩ := alarmByte_day_armed day h
      exact ⟨by rw [if_pos h]; exact e, ⟨fun _ => h, fun _ => t⟩⟩
    · simp [h, alarmByte_disabled day 1 31 (by omega)]
  · by_cases h : weekday < 99
    · obtain ⟨e, t⟩ := alarmByte_weekday_armed weekday h
      exact ⟨by rw [if_pos h]; exact e, ⟨fun _ => h, fun _ => t⟩⟩
    · simp [h, alarmByte_disabled weekday 0 6 (by omega)]

/-! ## C3: alarm round trip -/

/-- C3: field by field, whatever the other three inputs are: a minute input in
0..59 or equal to 99 is the minute `getAlarm` caches after `setAlarm`, and
likewise an hour in 0..23 or 99, a day in 1..31 or 99 and a weekday in 0..6 or
99, as the four alarm accessors return them. -/
theorem alarm_round_trip (H : Header) (d : Dev) (min hour day weekday : Nat) :
    (min ≤ 59 ∨ min = 99 →
      (getAlarmMinute (getAlarm (setAlarm H d min hour day weekday))).1 = min) ∧
    (hour ≤ 23 ∨ hour = 99 →
      (getAlarmHour (getAlarm (setAlarm H d min hour day weekday))).1 = hour) ∧
    ((1 ≤ day ∧ day ≤ 31) ∨ day = 99 →
      (getAlarmDay (getAlarm (setAlarm H d min hour day weekday))).1 = day) ∧
    (weekday ≤ 6 ∨ weekday = 99 →
      (getAlarmWeekday (getAlarm (setAlarm H d min hour day weekday))).1 = weekday) := by
  obtain ⟨g9, g10, g11, g12⟩ := getAlarm_fields (setAlarm H d min hour day weekday)
  obtain ⟨h9, h10, h11, h12⟩ := setAlarm_regs H d min hour day weekday
  simp only [getAlarmMinute, getAlarmHour, getAlarmDay, getAlarmWeekday]
  rw [g9, g10, g11, g12, h9, h10, h11, h12]
  exact ⟨fun hmin => alarm_minute_back min (by omega) hmin,
    fun hhour => alarm_hour_back hour (by omega) hhour,
    fun hday => alarm_day_back day (by omega) hday,
    fun hweekday => alarm_weekday_back weekday (by omega) hweekday⟩

/-- C3 with out-of-range neighbours: in `setAlarm(30, 120, 1, 0)` the minute
30, the day 1 and the weekday 0 read back although the hour 120 is out of
range, and in `setAlarm(75, 99, 0, 200)` the disabled hour 99 reads back
although minute, day and weekday are out of range. -/
theorem alarm_round_trip_witness :
    (getAlarmMinute (getAlarm (setAlarm pcf8563Header (devOf []) 30 120 1 0))).1 = 30 ∧
    (getAlarmDay (getAlarm (setAlarm pcf8563Header (devOf []) 30 120 1 0))).1 = 1 ∧
    (getAlarmWeekday (getAlarm (setAlarm pcf8563Header (devOf []) 30 120 1 0))).1 = 0 ∧
    (getAlarmHour (getAlarm (setAlarm pcf8563Header (devOf []) 75 99 0 200))).1 = 99 :=
  ⟨(alarm_round_trip pcf8563Header (devOf []) 30 120 1 0).1 (by decide),
    (alarm_round_trip pcf8563Header (devOf []) 30 120 1 0).2.2.1 (by decide),
    (alarm_round_trip pcf8563Header (devOf []) 30 120 1 0).2.2.2 (by decide),
    (alarm_round_trip pcf8563Header (devOf []) 75 99 0 200).2.1 (by decide)⟩

/-! ## C4: century/month round trip -/

/-- C4: for a month in 1..12 and a century in {0,1}, the month byte `setDate`
sends is `decToBcd(m)` with the top bit set iff the century is 1, and
`getDate` decodes it back to exactly that month and century. -/
theorem month_century_round_trip (d : Dev) (day weekday m c year : Nat)
    (hm : 1 ≤ m ∧ m ≤ 12) (hc : c = 0 ∨ c = 1) :
    (setDate d day weekday m c year).bus.regs 7 =
      decToBcd m + (if c = 1 then 0x80 else 0) ∧
    (getMonth (getDate (setDate d day weekday m c year))).1 = m ∧
    (getDate (setDate d day weekday m c year)).rtc.century = c := by
  obtain ⟨_, _, gc, gm, _⟩ := getDate_fields (setDate d day weekday m c year)
  have hreg := setDate_month_reg d day weekday m c year
  obtain ⟨k1, k2, k3⟩ := month_century_back m (by omega) hm.1 c (by omega)
  simp only [getMonth]
  rw [gc, gm, hreg, k1]
  exact ⟨rfl, k2, k3⟩

/-- C4 at December of the 1900s: the byte sent is `0x92`. -/
theorem month_century_round_trip_witness :
    (setDate (devOf []) 31 4 12 1 99).bus.regs 7 = 0x92 ∧
    (getMonth (getDate (setDate (devOf []) 31 4 12 1 99))).1 = 12 ∧
    (getDate (setDate (devOf []) 31 4 12 1 99)).rtc.century = 1 :=
  month_century_round_trip (devOf []) 31 4 12 1 99 (by decide) (by decide)

/-! ## C5: what the status2 writers preserve -/

/-- C5, counterexample: on `staleDev` the chip holds `0x00` in status2 while
the driver still caches `0x11`; each of `enableAlarm`, `resetAlarm` and
`clearAlarm` writes the cached byte back, so register 1 goes from `0x00` to
`0x13`, `0x11` and `0x11`: bits 0 and 4, which are neither AIE (`0x02`) nor AF
(`0x08`), differ from what the chip held before the call. -/
theorem status2_writers_overwrite_with_cache :
    staleDev.bus.regs 1 = 0x00 ∧ staleDev.rtc.status2 = 0x11 ∧
    (enableAlarm pcf8563Header staleDev).bus.regs 1 = 0x13 ∧
    (resetAlarm pcf8563Header staleDev).bus.regs 1 = 0x11 ∧
    (clearAlarm pcf8563Header staleDev).bus.regs 1 = 0x11 ∧
    clearBits ((enableAlarm pcf8563Header staleDev).bus.regs 1)
        (pcf8563Header.RTCC_ALARM_AIE ||| pcf8563Header.RTCC_ALARM_AF) ≠
      clearBits (staleDev.bus.regs 1)
        (pcf8563Header.RTCC_ALARM_AIE ||| pcf8563Header.RTCC_ALARM_AF) ∧
    clearBits ((resetAlarm pcf8563Header staleDev).bus.regs 1)
        (pcf8563Header.RTCC_ALARM_AIE ||| pcf8563Header.RTCC_ALARM_AF) ≠
      clearBits (staleDev.bus.regs 1)
        (pcf8563Header.RTCC_ALARM_AIE ||| pcf8563Header.RTCC_ALARM_AF) ∧
    clearBits ((clearAlarm pcf8563Header staleDev).bus.regs 1)
        (pcf8563Header.RTCC_ALARM_AIE ||| pcf8563Header.RTCC_ALARM_AF) ≠
      clearBits (staleDev.bus.regs 1)
        (pcf8563Header.RTCC_ALARM_AIE ||| pcf8563Header.RTCC_ALARM_AF) := by
  decide

/-- C5, amended: after each of `enableAlarm`, `resetAlarm` and `clearAlarm`
register 1 of the chip equals the new cached status2, and outside the AIE and
AF bits that byte equals the status2 the driver had cached before the call;
the value the chip held before the call does not enter. -/
theorem status2_writers_preserve_cached_bits (H : Header) (d : Dev) :
    ((enableAlarm H d).bus.regs 1 = (enableAlarm H d).rtc.status2 ∧
      clearBits ((enableAlarm H d).bus.regs 1) (H.RTCC_ALARM_AIE ||| H.RTCC_ALARM_AF) =
        clearBits d.rtc.status2 (H.RTCC_ALARM_AIE ||| H.RTCC_ALARM_AF)) ∧
    ((resetAlarm H d).bus.regs 1 = (resetAlarm H d).rtc.status2 ∧
      clearBits ((resetAlarm H d).bus.regs 1) (H.RTCC_ALARM_AIE ||| H.RTCC_ALARM_AF) =
        clearBits d.rtc.status2 (H.RTCC_ALARM_AIE ||| H.RTCC_ALARM_AF)) ∧
    ((clearAlarm H d).bus.regs 1 = (clearAlarm H d).rtc.status2 ∧
      clearBits ((clearAlarm H d).bus.regs 1) (H.RTCC_ALARM_AIE ||| H.RTCC_ALARM_AF) =
        clearBits d.rtc.status2 (H.RTCC_ALARM_AIE ||| H.RTCC_ALARM_AF)) := by
  obtain ⟨e1, e2, _⟩ := enableAlarm_write H d
  obtain ⟨r1, r2, _⟩ := resetAlarm_write H d
  obtain ⟨c1, c2, _⟩ := clearAlarm_write H d
  refine ⟨⟨e2, ?_⟩, ⟨r2, ?_⟩, ⟨c2, ?_⟩⟩
  · rw [e2, e1]; exact enable_other_bits _ _ _
  · rw [r2, r1]; exact reset_other_bits _ _ _
  · rw [c2, c1]; exact clear_other_bits _ _ _

/-! ## C6: status masking -/

/-- C6: with AIE and AF disjoint byte masks, after `enableAlarm` followed by
`resetAlarm` the cached status2 has AIE set and AF clear, and it is the byte
last written, to register 1; after `clearAlarm` from any state the cached
status2 has AIE and AF clear, and it is the byte last written, to register 1. -/
theorem status_masking (H : Header) (d : Dev)
    (haie : H.RTCC_ALARM_AIE < 256)
    (hdisjoint : H.RTCC_ALARM_AIE &&& H.RTCC_ALARM_AF = 0) :
    ((resetAlarm H (enableAlarm H d)).rtc.status2 &&& H.RTCC_ALARM_AIE = H.RTCC_ALARM_AIE ∧
      (resetAlarm H (enableAlarm H d)).rtc.status2 &&& H.RTCC_ALARM_AF = 0 ∧
      (resetAlarm H (enableAlarm H d)).bus.regs 1 =
        (resetAlarm H (enableAlarm H d)).rtc.status2 ∧
      (resetAlarm H (enableAlarm H d)).bus.log.getLast? =
        some (Txn.transmit [0x01, (resetAlarm H (enableAlarm H d)).rtc.status2])) ∧
    ((clearAlarm H d).rtc.status2 &&& H.RTCC_ALARM_AIE = 0 ∧
      (clearAlarm H d).rtc.status2 &&& H.RTCC_ALARM_AF = 0 ∧
      (clearAlarm H d).bus.regs 1 = (clearAlarm H d).rtc.status2 ∧
      (clearAlarm H d).bus.log.getLast? =
        some (Txn.transmit [0x01, (clearAlarm H d).rtc.status2])) := by
  obtain ⟨e1, _, _⟩ := enableAlarm_write H d
  obtain ⟨r1, r2, r3⟩ := resetAlarm_write H (enableAlarm H d)
  obtain ⟨c1, c2, c3⟩ := clearAlarm_write H d
  refine ⟨⟨?_, ?_, r2, r3⟩, ⟨?_, ?_, c2, c3⟩⟩
  · rw [r1, e1]; exact enable_reset_keeps _ _ _ haie hdisjoint
  · rw [r1]; exact clearBits_and_self _ _
  · rw [c1]; exact clearBits_and_self _ _
  · rw [c1]; exact clearBits_clearBits_and _ _ _

/-- C6 with AIE = `0x02`, AF = `0x08` and a cached status2 of `0xFF`: the
sequence leaves `0xF7`, `clearAlarm` leaves `0xF5`. -/
theorem status_masking_witness :
    ((resetAlarm pcf8563Header (enableAlarm pcf8563Header (getTime (devOf [0, 0xFF])))
        ).rtc.status2 &&& 0x02 = 0x02 ∧
      (resetAlarm pcf8563Header (enableAlarm pcf8563Header (getTime (devOf [0, 0xFF])))
        ).rtc.status2 &&& 0x08 = 0 ∧
      (resetAlarm pcf8563Header (enableAlarm pcf8563Header (getTime (devOf [0, 0xFF])))
        ).bus.regs 1 =
        (resetAlarm pcf8563Header (enableAlarm pcf8563Header (getTime (devOf [0, 0xFF])))
          ).rtc.status2 ∧
      (resetAlarm pcf8563Header (enableAlarm pcf8563Header (getTime (devOf [0, 0xFF])))
        ).bus.log.getLast? =
        some (Txn.transmit [0x01,
          (resetAlarm pcf8563Header (enableAlarm pcf8563Header (getTime (devOf [0, 0xFF])))
            ).rtc.status2])) ∧
    ((clearAlarm pcf8563Header (getTime (devOf [0, 0xFF]))).rtc.status2 &&& 0x02 = 0 ∧
      (clearAlarm pcf8563Header (getTime (devOf [0, 0xFF]))).rtc.status2 &&& 0x08 = 0 ∧
      (clearAlarm pcf8563Header (getTime (devOf [0, 0xFF]))).bus.regs 1 =
        (clearAlarm pcf8563Header (getTime (devOf [0, 0xFF]))).rtc.status2 ∧
      (clearAlarm pcf8563Header (getTime (devOf [0, 0xFF]))).bus.log.getLast? =
        some (Txn.transmit [0x01,
          (clearAlarm pcf8563Header (getTime (devOf [0, 0xFF]))).rtc.status2])) :=
  status_masking pcf8563Header (getTime (devOf [0, 0xFF])) (by decide) (by decide)

/-! ## C7: the block `initClock` writes -/

/-- C7, counterexample: with every register holding `0xFF` beforehand,
register 15 still holds `0xFF` after `initClock`; the transaction carries the
start address and 15 data bytes, for registers 0 to 14. -/
theorem initClock_leaves_register_15 :
    (initClock (devOf (List.replicate 16 0xFF))).bus.regs 15 = 0xFF ∧
    (initClock (devOf (List.replicate 16 0xFF))).bus.regs 15 ≠ 0x00 := by
  decide

/-- C7, amended: `initClock` writes a fixed 15-byte block starting at register
0: afterwards registers 0 and 1 are `0x00`, registers 2 to 8 are `0x01`,
registers 9 to 12 are `0x80`, registers 13 and 14 are `0x00`, and register 15
holds what it held before. -/
theorem initClock_block (d : Dev) :
    (initClock d).bus.regs 0 = 0x00 ∧ (initClock d).bus.regs 1 = 0x00 ∧
    (initClock d).bus.regs 2 = 0x01 ∧ (initClock d).bus.regs 3 = 0x01 ∧
    (initClock d).bus.regs 4 = 0x01 ∧ (initClock d).bus.regs 5 = 0x01 ∧
    (initClock d).bus.regs 6 = 0x01 ∧ (initClock d).bus.regs 7 = 0x01 ∧
    (initClock d).bus.regs 8 = 0x01 ∧
    (initClock d).bus.regs 9 = 0x80 ∧ (initClock d).bus.regs 10 = 0x80 ∧
    (initClock d).bus.regs 11 = 0x80 ∧ (initClock d).bus.regs 12 = 0x80 ∧
    (initClock d).bus.regs 13 = 0x00 ∧ (initClock d).bus.regs 14 = 0x00 ∧
    (initClock d).bus.regs 15 = d.bus.regs 15 ∧
    (initClock d).bus.log = d.bus.log ++
      [Txn.transmit [0x00, 0x00, 0x00, 0x01, 0x01, 0x01, 0x01, 0x01, 0x01, 0x01,
        0x80, 0x80, 0x80, 0x80, 0x00, 0x00]] := by
  simp [initClock, Wire.transmission, Bus.receive, Bus.store, toByte]

/-! ## C8: `initClock` disables the four alarms -/

/-- C8: for every prior chip and driver state, `initClock` followed by
`getAlarm` leaves the four cached alarm fields, as the accessors return them,
equal to the disabled sentinel 99. -/
theorem initClock_getAlarm_disabled (d : Dev) :
    (getAlarmMinute (getAlarm (initClock d))).1 = 99 ∧
    (getAlarmHour (getAlarm (initClock d))).1 = 99 ∧
    (getAlarmDay (getAlarm (initClock d))).1 = 99 ∧
    (getAlarmWeekday (getAlarm (initClock d))).1 = 99 := by
  obtain ⟨g9, g10, g11, g12⟩ := getAlarm_fields (initClock d)
  obtain ⟨h9, h10, h11, h12⟩ := initClock_alarm_regs d
  simp only [getAlarmMinute, getAlarmHour, getAlarmDay, getAlarmWeekday]
  rw [g9, g10, g11, g12, h9, h10, h11, h12]
  decide

/-! ## C9: date formatting -/

/-- C9: when the year `getDate` decodes is at most 99 (day and month decoded
from masked registers always are), `formatDate` returns the 10-character
string `CCYY-MM-DD` for style ASIA, `MM/DD/CCYY` for style US and `DD-MM-CCYY`
for style WORLD and every other style value, with two-digit zero-padded
fields and `CC` being "19" if the decoded century is 1 and "20" otherwise. -/
theorem formatDate_styles (H : Header) (d : Dev) (style : Nat)
    (hlabels : H.LabelsDistinct) (hbuf : 11 ≤ d.rtc.strDate.length)
    (hyear : (getDate d).rtc.year ≤ 99) :
    (style = H.RTCC_DATE_ASIA →
      cString (formatDate H d style).rtc.strDate =
        centuryText (getDate d).rtc.century ++ twoDigit (getDate d).rtc.year ++ "-" ++
          twoDigit (getDate d).rtc.month ++ "-" ++ twoDigit (getDate d).rtc.day) ∧
    (style = H.RTCC_DATE_US →
      cString (formatDate H d style).rtc.strDate =
        twoDigit (getDate d).rtc.month ++ "/" ++ twoDigit (getDate d).rtc.day ++ "/" ++
          centuryText (getDate d).rtc.century ++ twoDigit (getDate d).rtc.year) ∧
    (style = H.RTCC_DATE_WORLD ∨ (style ≠ H.RTCC_DATE_ASIA ∧ style ≠ H.RTCC_DATE_US) →
      cString (formatDate H d style).rtc.strDate =
        twoDigit (getDate d).rtc.day ++ "-" ++ twoDigit (getDate d).rtc.month ++ "-" ++
          centuryText (getDate d).rtc.century ++ twoDigit (getDate d).rtc.year) ∧
    (cString (formatDate H d style).rtc.strDate).length = 10 := by
  obtain ⟨hday, hmonth⟩ := getDate_day_month_le d
  obtain ⟨hc1, hc2⟩ := centuryChars_ne_zero (getDate d).rtc.century
  have y1 := digitChar_ne_zero ((getDate d).rtc.year / 10) (by omega)
  have y0 := digitChar_ne_zero ((getDate d).rtc.year % 10) (by omega)
  have m1 := digitChar_ne_zero ((getDate d).rtc.month / 10) (by omega)
  have m0 := digitChar_ne_zero ((getDate d).rtc.month % 10) (by omega)
  have d1 := digitChar_ne_zero ((getDate d).rtc.day / 10) (by omega)
  have d0 := digitChar_ne_zero ((getDate d).rtc.day % 10) (by omega)
  have hbufeq := formatDate_strDate H d style hbuf
  have asia : style = H.RTCC_DATE_ASIA →
      cString (formatDate H d style).rtc.strDate =
        centuryText (getDate d).rtc.century ++ twoDigit (getDate d).rtc.year ++ "-" ++
          twoDigit (getDate d).rtc.month ++ "-" ++ twoDigit (getDate d).rtc.day := by
    intro hs
    rw [hbufeq, if_pos hs, cString_terminated _ _ (by simp [hc1, hc2, y1, y0, m1, m0, d1, d0])]
    exact asia_text _ _ _ _ hyear hmonth hday
  have us : style = H.RTCC_DATE_US →
      cString (formatDate H d style).rtc.strDate =
        twoDigit (getDate d).rtc.month ++ "/" ++ twoDigit (getDate d).rtc.day ++ "/" ++
          centuryText (getDate d).rtc.century ++ twoDigit (getDate d).rtc.year := by
    intro hs
    have hna : style ≠ H.RTCC_DATE_ASIA := fun e => hlabels.asia_us (e.symm.trans hs)
    rw [hbufeq, if_neg hna, if_pos hs,
      cString_terminated _ _ (by simp [hc1, hc2, y1, y0, m1, m0, d1, d0])]
    exact us_text _ _ _ _ hyear hmonth hday
  have world : style ≠ H.RTCC_DATE_ASIA → style ≠ H.RTCC_DATE_US →
      cString (formatDate H d style).rtc.strDate =
        twoDigit (getDate d).rtc.day ++ "-" ++ twoDigit (getDate d).rtc.month ++ "-" ++
          centuryText (getDate d).rtc.century ++ twoDigit (getDate d).rtc.year := by
    intro hna hnu
    rw [hbufeq, if_neg hna, if_neg hnu,
      cString_terminated _ _ (by simp [hc1, hc2, y1, y0, m1, m0, d1, d0])]
    exact world_text _ _ _ _ hyear hmonth hday
  refine ⟨asia, us, ?_, ?_⟩
  · rintro (hw | ⟨hna, hnu⟩)
    · exact world (fun e => hlabels.asia_world (e.symm.trans hw))
        (fun e => hlabels.us_world (e.symm.trans hw))
    · exact world hna hnu
  · rw [hbufeq, cString_terminated _ _ (by
      split_ifs <;> simp [hc1, hc2, y1, y0, m1, m0, d1, d0])]
    split_ifs <;> rfl

/-- C9 at the specification's example: the chip holds day `0x05`, month `0x03`
with the century bit clear and year `0x24`. -/
theorem formatDate_styles_witness :
    cString (formatDate pcf8563Header (devOf [0, 0, 0, 0, 0, 0x05, 0, 0x03, 0x24])
      pcf8563Header.RTCC_DATE_ASIA).rtc.strDate = "2024-03-05" ∧
    cString (formatDate pcf8563Header (devOf [0, 0, 0, 0, 0, 0x05, 0, 0x03, 0x24])
      pcf8563Header.RTCC_DATE_US).rtc.strDate = "03/05/2024" ∧
    cString (formatDate pcf8563Header (devOf [0, 0, 0, 0, 0, 0x05, 0, 0x03, 0x24])
      pcf8563Header.RTCC_DATE_WORLD).rtc.strDate = "05-03-2024" ∧
    cString (formatDate pcf8563Header (devOf [0, 0, 0, 0, 0, 0x05, 0, 0x03, 0x24])
      0xFF).rtc.strDate = "05-03-2024" :=
  ⟨((formatDate_styles pcf8563Header (devOf [0, 0, 0, 0, 0, 0x05, 0, 0x03, 0x24])
      pcf8563Header.RTCC_DATE_ASIA ⟨by decide, by decide, by decide, by decide⟩
      (by decide) (by decide)).1 rfl).trans (by decide),
    ((formatDate_styles pcf8563Header (devOf [0, 0, 0, 0, 0, 0x05, 0, 0x03, 0x24])
      pcf8563Header.RTCC_DATE_US ⟨by decide, by decide, by decide, by decide⟩
      (by decide) (by decide)).2.1 rfl).trans (by decide),
    ((formatDate_styles pcf8563Header (devOf [0, 0, 0, 0, 0, 0x05, 0, 0x03, 0x24])
      pcf8563Header.RTCC_DATE_WORLD ⟨by decide, by decide, by decide, by decide⟩
      (by decide) (by decide)).2.2.1 (Or.inl rfl)).trans (by decide),
    ((formatDate_styles pcf8563Header (devOf [0, 0, 0, 0, 0, 0x05, 0, 0x03, 0x24])
      0xFF ⟨by decide, by decide, by decide, by decide⟩
      (by decide) (by decide)).2.2.1 (Or.inr ⟨by decide, by decide⟩)).trans (by decide)⟩

/-! ## C10: time formatting -/

/-- C10: with hour, minute and second as `getTime` decodes them (always at
most 99), `formatTime` returns the 5-character string `HH:MM` for style HM and
the 8-character string `HH:MM:SS` for style HMS and every other style value,
each pair being the two-digit zero-padded decimal. -/
theorem formatTime_styles (H : Header) (d : Dev) (style : Nat)
    (hlabels : H.LabelsDistinct) (hbuf : 9 ≤ d.rtc.strOut.length) :
    (style = H.RTCC_TIME_HM →
      cString (formatTime H d style).rtc.strOut =
        twoDigit (getTime d).rtc.hour ++ ":" ++ twoDigit (getTime d).rtc.minute ∧
      (cString (formatTime H d style).rtc.strOut).length = 5) ∧
    (style = H.RTCC_TIME_HMS ∨ style ≠ H.RTCC_TIME_HM →
      cString (formatTime H d style).rtc.strOut =
        twoDigit (getTime d).rtc.hour ++ ":" ++ twoDigit (getTime d).rtc.minute ++ ":" ++
          twoDigit (getTime d).rtc.sec ∧
      (cString (formatTime H d style).rtc.strOut).length = 8) := by
  obtain ⟨hhour, hminute, hsec⟩ := getTime_fields_le d
  have h1 := digitChar_ne_zero ((getTime d).rtc.hour / 10) (by omega)
  have h0 := digitChar_ne_zero ((getTime d).rtc.hour % 10) (by omega)
  have m1 := digitChar_ne_zero ((getTime d).rtc.minute / 10) (by omega)
  have m0 := digitChar_ne_zero ((getTime d).rtc.minute % 10) (by omega)
  have s1 := digitChar_ne_zero ((getTime d).rtc.sec / 10) (by omega)
  have s0 := digitChar_ne_zero ((getTime d).rtc.sec % 10) (by omega)
  have hbufeq := formatTime_strOut H d style hbuf
  have hms : style ≠ H.RTCC_TIME_HM →
      cString (formatTime H d style).rtc.strOut =
        twoDigit (getTime d).rtc.hour ++ ":" ++ twoDigit (getTime d).rtc.minute ++ ":" ++
          twoDigit (getTime d).rtc.sec ∧
      (cString (formatTime H d style).rtc.strOut).length = 8 := by
    intro hs
    rw [hbufeq, if_neg hs, cString_terminated _ _ (by simp [h1, h0, m1, m0, s1, s0])]
    exact ⟨hms_text _ _ _ hhour hminute hsec, rfl⟩
  refine ⟨?_, ?_⟩
  · intro hs
    rw [hbufeq, if_pos hs, cString_terminated _ _ (by simp [h1, h0, m1, m0])]
    exact ⟨hm_text _ _ hhour hminute, rfl⟩
  · rintro (hs | hs)
    · exact hms (fun e => hlabels.time_labels (e.symm.trans hs))
    · exact hms hs

/-- C10 at the specification's example: the chip holds seconds `0x30`, minutes
`0x05` and hours `0x09`. -/
theorem formatTime_styles_witness :
    cString (formatTime pcf8563Header (devOf [0, 0, 0x30, 0x05, 0x09])
      pcf8563Header.RTCC_TIME_HM).rtc.strOut = "09:05" ∧
    cString (formatTime pcf8563Header (devOf [0, 0, 0x30, 0x05, 0x09])
      pcf8563Header.RTCC_TIME_HMS).rtc.strOut = "09:05:30" ∧
    cString (formatTime pcf8563Header (devOf [0, 0, 0x30, 0x05, 0x09])
      0xFF).rtc.strOut = "09:05:30" :=
  ⟨(((formatTime_styles pcf8563Header (devOf [0, 0, 0x30, 0x05, 0x09])
      pcf8563Header.RTCC_TIME_HM ⟨by decide, by decide, by decide, by decide⟩
      (by decide)).1 rfl).1).trans (by decide),
    (((formatTime_styles pcf8563Header (devOf [0, 0, 0x30, 0x05, 0x09])
      pcf8563Header.RTCC_TIME_HMS ⟨by decide, by decide, by decide, by decide⟩
      (by decide)).2 (Or.inl rfl)).1).trans (by decide),
    (((formatTime_styles pcf8563Header (devOf [0, 0, 0x30, 0x05, 0x09])
      0xFF ⟨by decide, by decide, by decide, by decide⟩
      (by decide)).2 (Or.inr (by decide))).1).trans (by decide)⟩

/-! ## C11: the two transactions of `setAlarm` -/

/-- C11: for every four inputs, `setAlarm` performs exactly two write
transactions, in this order: a write of register 1 with the cached status2
after clearing AF and setting AIE, which is also the new cached status2, then a
4-byte burst from register 9 with the encoded minute, hour, day and weekday
bytes; with AIE and AF disjoint byte masks the byte written has AIE set and AF
clear. -/
theorem setAlarm_arms_first (H : Header) (d : Dev) (min hour day weekday : Nat)
    (haie : H.RTCC_ALARM_AIE < 256)
    (hdisjoint : H.RTCC_ALARM_AIE &&& H.RTCC_ALARM_AF = 0) :
    (setAlarm H d min hour day weekday).bus.log = d.bus.log ++
      [Txn.transmit [0x01, (setAlarm H d min hour day weekday).rtc.status2],
       Txn.transmit [0x09, alarmByte min 0 59, alarmByte hour 0 23, alarmByte day 1 31,
         alarmByte weekday 0 6]] ∧
    (setAlarm H d min hour day weekday).rtc.status2 =
      setBits (clearBits d.rtc.status2 H.RTCC_ALARM_AF) H.RTCC_ALARM_AIE ∧
    (setAlarm H d min hour day weekday).rtc.status2 &&& H.RTCC_ALARM_AIE =
      H.RTCC_ALARM_AIE ∧
    (setAlarm H d min hour day weekday).rtc.status2 &&& H.RTCC_ALARM_AF = 0 ∧
    (setAlarm H d min hour day weekday).bus.regs 1 =
      (setAlarm H d min hour day weekday).rtc.status2 ∧
    (setAlarm H d min hour day weekday).bus.regs 9 = alarmByte min 0 59 ∧
    (setAlarm H d min hour day weekday).bus.regs 10 = alarmByte hour 0 23 ∧
    (setAlarm H d min hour day weekday).bus.regs 11 = alarmByte day 1 31 ∧
    (setAlarm H d min hour day weekday).bus.regs 12 = alarmByte weekday 0 6 := by
  obtain ⟨hs, hr, hl⟩ := setAlarm_effect H d min hour day weekday
  obtain ⟨h9, h10, h11, h12⟩ := setAlarm_regs H d min hour day weekday
  refine ⟨hl, hs, ?_, ?_, hr, h9, h10, h11, h12⟩
  · rw [hs]; exact enable_sets_aie _ _ _ haie
  · rw [hs]; exact enable_clears_af _ _ _ hdisjoint

/-- C11 with all four inputs 99, a cached status2 of `0x08` (AF set) and an
empty log: the log is the write of `0x02` to register 1 followed by the burst
of four `0x80` bytes from register 9. -/
theorem setAlarm_arms_first_witness :
    (setAlarm pcf8563Header (getTime (devOf [0, 0x08])) 99 99 99 99).bus.log =
      (getTime (devOf [0, 0x08])).bus.log ++
      [Txn.transmit [0x01, 0x02], Txn.transmit [0x09, 0x80, 0x80, 0x80, 0x80]] ∧
    (setAlarm pcf8563Header (getTime (devOf [0, 0x08])) 99 99 99 99).rtc.status2 = 0x02 :=
  ⟨(setAlarm_arms_first pcf8563Header (getTime (devOf [0, 0x08])) 99 99 99 99
      (by decide) (by decide)).1.trans (by decide),
    (setAlarm_arms_first pcf8563Header (getTime (devOf [0, 0x08])) 99 99 99 99
      (by decide) (by decide)).2.1.trans (by decide)⟩

/-! ## C12: `alarmEnabled` and `alarmActive` read the chip -/

/-- C12: for every chip and driver state, `alarmEnabled` returns true iff the
chip's status2 register has an AIE bit set and `alarmActive` iff it has an AF
bit set, whatever the driver has cached; neither call changes a cached field
or a chip register (each performs one pointer write and one 1-byte read). -/
theorem alarm_queries_read_chip (H : Header) (d : Dev) :
    ((alarmEnabled H d).1 = true ↔ toByte (d.bus.regs 1) &&& H.RTCC_ALARM_AIE ≠ 0) ∧
    ((alarmActive H d).1 = true ↔ toByte (d.bus.regs 1) &&& H.RTCC_ALARM_AF ≠ 0) ∧
    (∀ r : Rtc, (alarmEnabled H { d with rtc := r }).1 = (alarmEnabled H d).1) ∧
    (∀ r : Rtc, (alarmActive H { d with rtc := r }).1 = (alarmActive H d).1) ∧
    (alarmEnabled H d).2.rtc = d.rtc ∧ (alarmEnabled H d).2.bus.regs = d.bus.regs ∧
    (alarmActive H d).2.rtc = d.rtc ∧ (alarmActive H d).2.bus.regs = d.bus.regs ∧
    (alarmEnabled H d).2.bus.log = d.bus.log ++ [Txn.transmit [0x01], Txn.request 1] ∧
    (alarmActive H d).2.bus.log = d.bus.log ++ [Txn.transmit [0x01], Txn.request 1] := by
  obtain ⟨hv, hrtc, hregs, hlog⟩ := readStatus2_effect d
  refine ⟨?_, ?_, ?_, ?_, hrtc, hregs, hrtc, hregs, hlog, hlog⟩
  · simp only [alarmEnabled, hv, bne_iff_ne]
  · simp only [alarmActive, hv, bne_iff_ne]
  · intro r
    simp only [alarmEnabled, hv, (readStatus2_effect { d with rtc := r }).1]
  · intro r
    simp only [alarmActive, hv, (readStatus2_effect { d with rtc := r }).1]

/-! ## C13: the frame of `clearStatus` -/

/-- C13: for every chip state, after `clearStatus` registers 0 and 1 are
`0x00` and every other register (index 2 and above) holds the value it held
before; the cached fields are untouched. -/
theorem clearStatus_frame (d : Dev) :
    (clearStatus d).bus.regs 0 = 0x00 ∧ (clearStatus d).bus.regs 1 = 0x00 ∧
    (∀ i, (clearStatus d).bus.regs (i + 2) = d.bus.regs (i + 2)) ∧
    (clearStatus d).rtc = d.rtc ∧
    (clearStatus d).bus.log = d.bus.log ++ [Txn.transmit [0x00, 0x00, 0x00]] := by
  simp [clearStatus, Wire.transmission, Bus.receive, Bus.store, toByte]

/-! ## C14: accessor asymmetry -/

/-- C14: the accessors other than `getHour` return the cached field and leave
the whole state, bus log included, as it was; `getHour` performs the pointer
write and 5-byte read of `getTime`, returns the hour decoded from the chip's
hours register, and overwrites the cached status1, status2, second and minute
with what the chip holds. -/
theorem accessor_asymmetry (d : Dev) :
    (getSecond d = (d.rtc.sec, d) ∧ getMinute d = (d.rtc.minute, d) ∧
      getDay d = (d.rtc.day, d) ∧ getWeekday d = (d.rtc.weekday, d) ∧
      getMonth d = (d.rtc.month, d) ∧ getYear d = (d.rtc.year, d) ∧
      getStatus1 d = (d.rtc.status1, d) ∧ getStatus2 d = (d.rtc.status2, d) ∧
      getAlarmMinute d = (d.rtc.alarm_minute, d) ∧ getAlarmHour d = (d.rtc.alarm_hour, d) ∧
      getAlarmDay d = (d.rtc.alarm_day, d) ∧
      getAlarmWeekday d = (d.rtc.alarm_weekday, d)) ∧
    ((getHour d).1 = bcdToDec (toByte (d.bus.regs 4) &&& 0x3f) ∧
      (getHour d).2.rtc.hour = (getHour d).1 ∧
      (getHour d).2.bus.log = d.bus.log ++ [Txn.transmit [0x00], Txn.request 5] ∧
      (getHour d).2.bus.regs = d.bus.regs ∧
      (getHour d).2.rtc.status1 = toByte (d.bus.regs 0) ∧
      (getHour d).2.rtc.status2 = toByte (d.bus.regs 1) ∧
      (getHour d).2.rtc.sec = bcdToDec (toByte (d.bus.regs 2) &&& 0x7f) ∧
      (getHour d).2.rtc.minute = bcdToDec (toByte (d.bus.regs 3) &&& 0x7f)) := by
  obtain ⟨g1, g2, gs, gm, gh⟩ := getTime_fields d
  obtain ⟨gr, gl⟩ := getTime_effect d
  exact ⟨⟨rfl, rfl, rfl, rfl, rfl, rfl, rfl, rfl, rfl, rfl, rfl, rfl⟩,
    ⟨gh, rfl, gl, gr, g1, g2, gs, gm⟩⟩

/-! ## C15: the alarm bytes on the wire -/

/-- C15: for all four `setAlarm` inputs, each byte `setAlarm` leaves in
registers 9..12 is either exactly `0x80` or has the top bit clear and is the
BCD encoding of a value in the field's range (minute 0..59, hour 0..23, day
1..31, weekday 0..6); these four bytes are the only ones the burst to
registers 9..12 carries. -/
theorem setAlarm_wire_invariant (H : Header) (d : Dev) (min hour day weekday : Nat) :
    ((setAlarm H d min hour day weekday).bus.regs 9 = 0x80 ∨
      ((setAlarm H d min hour day weekday).bus.regs 9 &&& 0x80 = 0 ∧
        ∃ w, 0 ≤ w ∧ w ≤ 59 ∧
          (setAlarm H d min hour day weekday).bus.regs 9 = decToBcd w)) ∧
    ((setAlarm H d min hour day weekday).bus.regs 10 = 0x80 ∨
      ((setAlarm H d min hour day weekday).bus.regs 10 &&& 0x80 = 0 ∧
        ∃ w, 0 ≤ w ∧ w ≤ 23 ∧
          (setAlarm H d min hour day weekday).bus.regs 10 = decToBcd w)) ∧
    ((setAlarm H d min hour day weekday).bus.regs 11 = 0x80 ∨
      ((setAlarm H d min hour day weekday).bus.regs 11 &&& 0x80 = 0 ∧
        ∃ w, 1 ≤ w ∧ w ≤ 31 ∧
          (setAlarm H d min hour day weekday).bus.regs 11 = decToBcd w)) ∧
    ((setAlarm H d min hour day weekday).bus.regs 12 = 0x80 ∨
      ((setAlarm H d min hour day weekday).bus.regs 12 &&& 0x80 = 0 ∧
        ∃ w, 0 ≤ w ∧ w ≤ 6 ∧
          (setAlarm H d min hour day weekday).bus.regs 12 = decToBcd w)) ∧
    (setAlarm H d min hour day weekday).bus.log = d.bus.log ++
      [Txn.transmit [0x01, (setAlarm H d min hour day weekday).rtc.status2],
       Txn.transmit [0x09, (setAlarm H d min hour day weekday).bus.regs 9,
         (setAlarm H d min hour day weekday).bus.regs 10,
         (setAlarm H d min hour day weekday).bus.regs 11,
         (setAlarm H d min hour day weekday).bus.regs 12]] := by
  obtain ⟨h9, h10, h11, h12⟩ := setAlarm_regs H d min hour day weekday
  obtain ⟨_, _, hl⟩ := setAlarm_effect H d min hour day weekday
  rw [h9, h10, h11, h12]
  exact ⟨alarmByte_wire_state min 0 59 (by decide) (alarmByte_minute_armed min),
    alarmByte_wire_state hour 0 23 (by decide) (alarmByte_hour_armed hour),
    alarmByte_wire_state day 1 31 (by decide) (alarmByte_day_armed day),
    alarmByte_wire_state weekday 0 6 (by decide) (alarmByte_weekday_armed weekday), hl⟩

/-! ## C16: decoding ignores the bits outside the masks -/

/-- C16: two devices whose chips agree on registers 0 and 1, on seconds and
minutes under `0x7F` and on hours under `0x3F` get identical status1, status2,
second, minute and hour from `getTime`; two whose chips agree on day under
`0x3F`, weekday under `0x07`, month under `0x9F` and on the year byte get
identical day, weekday, month, century and year from `getDate`; the decoded
second is a function of the seconds register under `0x7F` (so the VL bit does
not enter), and the cached century is 0 or 1. -/
theorem decoding_ignores_other_bits (d1 d2 : Dev) :
    (d1.bus.regs 0 = d2.bus.regs 0 → d1.bus.regs 1 = d2.bus.regs 1 →
      d1.bus.regs 2 &&& 0x7F = d2.bus.regs 2 &&& 0x7F →
      d1.bus.regs 3 &&& 0x7F = d2.bus.regs 3 &&& 0x7F →
      d1.bus.regs 4 &&& 0x3F = d2.bus.regs 4 &&& 0x3F →
      (getTime d1).rtc.status1 = (getTime d2).rtc.status1 ∧
      (getTime d1).rtc.status2 = (getTime d2).rtc.status2 ∧
      (getTime d1).rtc.sec = (getTime d2).rtc.sec ∧
      (getTime d1).rtc.minute = (getTime d2).rtc.minute ∧
      (getTime d1).rtc.hour = (getTime d2).rtc.hour) ∧
    (d1.bus.regs 5 &&& 0x3F = d2.bus.regs 5 &&& 0x3F →
      d1.bus.regs 6 &&& 0x07 = d2.bus.regs 6 &&& 0x07 →
      d1.bus.regs 7 &&& 0x9F = d2.bus.regs 7 &&& 0x9F →
      d1.bus.regs 8 = d2.bus.regs 8 →
      (getDate d1).rtc.day = (getDate d2).rtc.day ∧
      (getDate d1).rtc.weekday = (getDate d2).rtc.weekday ∧
      (getDate d1).rtc.month = (getDate d2).rtc.month ∧
      (getDate d1).rtc.century = (getDate d2).rtc.century ∧
      (getDate d1).rtc.year = (getDate d2).rtc.year) ∧
    (getTime d1).rtc.sec = bcdToDec (d1.bus.regs 2 &&& 0x7F) ∧
    ((getDate d1).rtc.century = 0 ∨ (getDate d1).rtc.century = 1) := by
  obtain ⟨a1, a2, a3, a4, a5⟩ := getTime_fields d1
  obtain ⟨b1, b2, b3, b4, b5⟩ := getTime_fields d2
  obtain ⟨c1, c2, c3, c4, c5⟩ := getDate_fields d1
  obtain ⟨e1, e2, e3, e4, e5⟩ := getDate_fields d2
  refine ⟨?_, ?_, ?_, ?_⟩
  · intro h0 h1 h2 h3 h4
    rw [a1, a2, a3, a4, a5, b1, b2, b3, b4, b5, h0, h1]
    simp only [toByte_and _ _ (by decide : 0x7f < 256),
      toByte_and _ _ (by decide : 0x3f < 256)]
    rw [h2, h3, h4]
    simp
  · intro h5 h6 h7 h8
    have h7c : d1.bus.regs 7 &&& 0x80 = d2.bus.regs 7 &&& 0x80 :=
      and_agree_sub _ _ 0x9F 0x80 h7 (by decide)
    have h7m : d1.bus.regs 7 &&& 0x1f = d2.bus.regs 7 &&& 0x1f :=
      and_agree_sub _ _ 0x9F 0x1f h7 (by decide)
    rw [c1, c2, c3, c4, c5, e1, e2, e3, e4, e5, h8]
    simp only [RTCC_CENTURY_MASK, toByte_and _ _ (by decide : 0x3f < 256),
      toByte_and _ _ (by decide : 0x07 < 256), toByte_and _ _ (by decide : 0x1f < 256),
      toByte_and _ _ (by decide : 0x80 < 256)]
    rw [h5, h6, h7c, h7m]
    simp
  · rw [a3, toByte_and _ _ (by decide : 0x7f < 256)]
  · rw [c3]
    split
    · exact Or.inr rfl
    · exact Or.inl rfl

/-- C16 on two chips that differ in every bit outside the masks (VL, the
unused bits of minutes, hours, day, weekday and month): both decode to
09:05:30 on day 5, weekday 3, month 12 of century 1, year 99. -/
theorem decoding_ignores_other_bits_witness :
    ((getTime (devOf [0x08, 0x02, 0x30, 0x05, 0x09])).rtc.sec =
        (getTime (devOf [0x08, 0x02, 0xB0, 0x85, 0xC9])).rtc.sec ∧
      (getTime (devOf [0x08, 0x02, 0xB0, 0x85, 0xC9])).rtc.sec = 30 ∧
      (getTime (devOf [0x08, 0x02, 0x30, 0x05, 0x09])).rtc.hour =
        (getTime (devOf [0x08, 0x02, 0xB0, 0x85, 0xC9])).rtc.hour) ∧
    ((getDate (devOf [0, 0, 0, 0, 0, 0x05, 0x03, 0x92, 0x99])).rtc.month =
        (getDate (devOf [0, 0, 0, 0, 0, 0xC5, 0xFB, 0xF2, 0x99])).rtc.month ∧
      (getDate (devOf [0, 0, 0, 0, 0, 0xC5, 0xFB, 0xF2, 0x99])).rtc.month = 12 ∧
      (getDate (devOf [0, 0, 0, 0, 0, 0x05, 0x03, 0x92, 0x99])).rtc.century =
        (getDate (devOf [0, 0, 0, 0, 0, 0xC5, 0xFB, 0xF2, 0x99])).rtc.century) :=
  ⟨⟨((decoding_ignores_other_bits (devOf [0x08, 0x02, 0x30, 0x05, 0x09])
        (devOf [0x08, 0x02, 0xB0, 0x85, 0xC9])).1
        (by decide) (by decide) (by decide) (by decide) (by decide)).2.2.1,
      by decide,
      ((decoding_ignores_other_bits (devOf [0x08, 0x02, 0x30, 0x05, 0x09])
        (devOf [0x08, 0x02, 0xB0, 0x85, 0xC9])).1
        (by decide) (by decide) (by decide) (by decide) (by decide)).2.2.2.2⟩,
    ⟨((decoding_ignores_other_bits (devOf [0, 0, 0, 0, 0, 0x05, 0x03, 0x92, 0x99])
        (devOf [0, 0, 0, 0, 0, 0xC5, 0xFB, 0xF2, 0x99])).2.1
        (by decide) (by decide) (by decide) (by decide)).2.2.1,
      by decide,
      ((decoding_ignores_other_bits (devOf [0, 0, 0, 0, 0, 0x05, 0x03, 0x92, 0x99])
        (devOf [0, 0, 0, 0, 0, 0xC5, 0xFB, 0xF2, 0x99])).2.1
        (by decide) (by decide) (by decide) (by decide)).2.2.2.1⟩⟩

/-! ## C17: time set/get round trip -/

/-- C17: for an hour in 0..23, a minute in 0..59 and a second in 0..59 and
every prior state, `getTime` after `setTime` caches exactly those values;
`setTime` writes registers 2, 3 and 4 only, in one transaction, and changes no
cached field. -/
theorem time_round_trip (d : Dev) (hour minute sec : Nat)
    (hhour : hour ≤ 23) (hminute : minute ≤ 59) (hsec : sec ≤ 59) :
    (getTime (setTime d hour minute sec)).rtc.hour = hour ∧
    (getTime (setTime d hour minute sec)).rtc.minute = minute ∧
    (getTime (setTime d hour minute sec)).rtc.sec = sec ∧
    (setTime d hour minute sec).rtc = d.rtc ∧
    (setTime d hour minute sec).bus.regs 0 = d.bus.regs 0 ∧
    (setTime d hour minute sec).bus.regs 1 = d.bus.regs 1 ∧
    (∀ i, (setTime d hour minute sec).bus.regs (i + 5) = d.bus.regs (i + 5)) ∧
    (setTime d hour minute sec).bus.log = d.bus.log ++
      [Txn.transmit [0x02, decToBcd sec, decToBcd minute, decToBcd hour]] := by
  obtain ⟨_, _, gs, gm, gh⟩ := getTime_fields (setTime d hour minute sec)
  obtain ⟨hrtc, r2, r3, r4, r0, r1, rframe, hlog⟩ := setTime_effect d hour minute sec
  refine ⟨?_, ?_, ?_, hrtc, r0, r1, rframe, hlog⟩
  · rw [gh, r4]; exact hour_field_back hour (by omega)
  · rw [gm, r3]; exact time_field_back minute (by omega)
  · rw [gs, r2]; exact time_field_back sec (by omega)

/-- C17 at 23:59:58 on a chip that held `0xFF` in every register. -/
theorem time_round_trip_witness :
    (getTime (setTime (devOf (List.replicate 16 0xFF)) 23 59 58)).rtc.hour = 23 ∧
    (getTime (setTime (devOf (List.replicate 16 0xFF)) 23 59 58)).rtc.minute = 59 ∧
    (getTime (setTime (devOf (List.replicate 16 0xFF)) 23 59 58)).rtc.sec = 58 :=
  ⟨(time_round_trip (devOf (List.replicate 16 0xFF)) 23 59 58
      (by decide) (by decide) (by decide)).1,
    (time_round_trip (devOf (List.replicate 16 0xFF)) 23 59 58
      (by decide) (by decide) (by decide)).2.1,
    (time_round_trip (devOf (List.replicate 16 0xFF)) 23 59 58
      (by decide) (by decide) (by decide)).2.2.1⟩

/-! ## C18: date set/get round trip -/

/-- C18: for a day in 1..31, a weekday in 0..6, a month in 1..12, a century in
{0,1} and a year in 0..99 and every prior state, `getDate` after `setDate`
caches exactly those five values; `setDate` writes registers 5 to 8 only, in
one transaction. -/
theorem date_round_trip (d : Dev) (day weekday month century year : Nat)
    (hday : 1 ≤ day ∧ day ≤ 31) (hweekday : weekday ≤ 6)
    (hmonth : 1 ≤ month ∧ month ≤ 12) (hcentury : century = 0 ∨ century = 1)
    (hyear : year ≤ 99) :
    (getDate (setDate d day weekday month century year)).rtc.day = day ∧
    (getDate (setDate d day weekday month century year)).rtc.weekday = weekday ∧
    (getDate (setDate d day weekday month century year)).rtc.month = month ∧
    (getDate (setDate d day weekday month century year)).rtc.century = century ∧
    (getDate (setDate d day weekday month century year)).rtc.year = year ∧
    (setDate d day weekday month century year).bus.regs 0 = d.bus.regs 0 ∧
    (setDate d day weekday month century year).bus.regs 1 = d.bus.regs 1 ∧
    (setDate d day weekday month century year).bus.regs 2 = d.bus.regs 2 ∧
    (setDate d day weekday month century year).bus.regs 3 = d.bus.regs 3 ∧
    (setDate d day weekday month century year).bus.regs 4 = d.bus.regs 4 ∧
    (∀ i, (setDate d day weekday month century year).bus.regs (i + 9) =
      d.bus.regs (i + 9)) ∧
    (setDate d day weekday month century year).bus.log = d.bus.log ++
      [Txn.transmit [0x05, decToBcd day, decToBcd weekday,
        decToBcd month + (if century = 1 then 0x80 else 0), decToBcd year]] := by
  obtain ⟨gd, gw, gc, gm, gy⟩ := getDate_fields (setDate d day weekday month century year)
  obtain ⟨r5, r6, r7, r8, r0, r1, r2, r3, r4, rframe, hlog⟩ :=
    setDate_effect d day weekday month century year
  have hreg := setDate_month_reg d day weekday month century year
  obtain ⟨k1, k2, k3⟩ := month_century_back month (by omega) hmonth.1 century (by omega)
  have hwire : (setDate d day weekday month century year).rtc.month =
      decToBcd month + (if century = 1 then 0x80 else 0) := by
    rw [← r7, hreg, k1]
  refine ⟨?_, ?_, ?_, ?_, ?_, r0, r1, r2, r3, r4, rframe, ?_⟩
  · rw [gd, r5]; exact day_field_back day (by omega)
  · rw [gw, r6]; exact weekday_field_back weekday (by omega)
  · rw [gm, hreg, k1]; exact k2
  · rw [gc, hreg, k1]; exact k3
  · rw [gy, r8]; exact year_field_back year (by omega)
  · rw [hlog, hwire]

/-- C18 at day 31, weekday 6, month 12, century 1, year 99 on a chip that held
`0xFF` in every register. -/
theorem date_round_trip_witness :
    (getDate (setDate (devOf (List.replicate 16 0xFF)) 31 6 12 1 99)).rtc.day = 31 ∧
    (getDate (setDate (devOf (List.replicate 16 0xFF)) 31 6 12 1 99)).rtc.weekday = 6 ∧
    (getDate (setDate (devOf (List.replicate 16 0xFF)) 31 6 12 1 99)).rtc.month = 12 ∧
    (getDate (setDate (devOf (List.replicate 16 0xFF)) 31 6 12 1 99)).rtc.century = 1 ∧
    (getDate (setDate (devOf (List.replicate 16 0xFF)) 31 6 12 1 99)).rtc.year = 99 :=
  ⟨(date_round_trip (devOf (List.replicate 16 0xFF)) 31 6 12 1 99
      (by decide) (by decide) (by decide) (by decide) (by decide)).1,
    (date_round_trip (devOf (List.replicate 16 0xFF)) 31 6 12 1 99
      (by decide) (by decide) (by decide) (by decide) (by decide)).2.1,
    (date_round_trip (devOf (List.replicate 16 0xFF)) 31 6 12 1 99
      (by decide) (by decide) (by decide) (by decide) (by decide)).2.2.1,
    (date_round_trip (devOf (List.replicate 16 0xFF)) 31 6 12 1 99
      (by decide) (by decide) (by decide) (by decide) (by decide)).2.2.2.1,
    (date_round_trip (devOf (List.replicate 16 0xFF)) 31 6 12 1 99
      (by decide) (by decide) (by decide) (by decide) (by decide)).2.2.2.2.1⟩

/-! ## C19: `setDate` caches the wire month -/

/-- C19: for every byte input, right after `setDate` the month `getMonth`
returns is the byte sent to register 7: the low seven bits of `decToBcd(mon)`
with the top bit set iff `century == 1`; it equals `mon` exactly when
`mon <= 9` and `century != 1`; the cached day, weekday, century and year are
those from before the call. -/
theorem setDate_caches_wire_month (d : Dev) (day weekday mon century year : Nat)
    (hmon : mon < 256) :
    (getMonth (setDate d day weekday mon century year)).1 =
      decToBcd mon % 128 + (if century = 1 then 128 else 0) ∧
    (getMonth (setDate d day weekday mon century year)).1 =
      (setDate d day weekday mon century year).bus.regs 7 ∧
    ((getMonth (setDate d day weekday mon century year)).1 = mon ↔
      mon ≤ 9 ∧ century ≠ 1) ∧
    (setDate d day weekday mon century year).rtc.day = d.rtc.day ∧
    (setDate d day weekday mon century year).rtc.weekday = d.rtc.weekday ∧
    (setDate d day weekday mon century year).rtc.century = d.rtc.century ∧
    (setDate d day weekday mon century year).rtc.year = d.rtc.year := by
  obtain ⟨cm, cd, cw, cc, cy⟩ := setDate_cache d day weekday mon century year
  obtain ⟨_, _, r7, _⟩ := setDate_effect d day weekday mon century year
  obtain ⟨tset, tclear⟩ := top_bit_forms (decToBcd mon) (toByte_lt _)
  obtain ⟨wne, wiff⟩ := wire_month_eq_iff mon hmon
  have hval : (setDate d day weekday mon century year).rtc.month =
      decToBcd mon % 128 + (if century = 1 then 128 else 0) := by
    rw [cm]
    by_cases hc : century = 1
    · rw [if_pos hc, if_pos hc, tset]
    · rw [if_neg hc, if_neg hc, tclear, Nat.add_zero]
  simp only [getMonth]
  refine ⟨hval, r7.symm, ?_, cd, cw, cc, cy⟩
  rw [hval]
  by_cases hc : century = 1
  · rw [if_pos hc]
    exact ⟨fun h => absurd h wne, fun h => absurd hc h.2⟩
  · rw [if_neg hc, Nat.add_zero]
    exact ⟨fun h => ⟨wiff.mp h, hc⟩, fun h => wiff.mpr h.1⟩

/-- C19 at `mon = 12`, `century = 1`: the cached month is `0x92 = 146`. -/
theorem setDate_caches_wire_month_witness :
    (getMonth (setDate (devOf []) 1 1 12 1 24)).1 = 146 ∧
    (getMonth (setDate (devOf []) 1 1 12 1 24)).1 ≠ 12 :=
  ⟨(setDate_caches_wire_month (devOf []) 1 1 12 1 24 (by decide)).1.trans (by decide),
    fun h => absurd
      (((setDate_caches_wire_month (devOf []) 1 1 12 1 24 (by decide)).2.2.1).mp h).1
      (by decide)⟩

/-! ## C20: `formatTime` on arbitrary register contents -/

/-- C20: for every content of the chip's seconds, minutes and hours registers,
`formatTime` returns eight characters of the shape `DD:DD:DD` for style HMS and
five characters of the shape `DD:DD` for style HM, every `D` a decimal digit;
the decoded hour is at most 45 and the decoded minute and second at most 85. -/
theorem formatTime_well_formed (H : Header) (d : Dev)
    (hlabels : H.LabelsDistinct) (hbuf : 9 ≤ d.rtc.strOut.length) :
    (∃ h1 h0 m1 m0 s1 s0 : Char,
      h1.isDigit = true ∧ h0.isDigit = true ∧ m1.isDigit = true ∧ m0.isDigit = true ∧
      s1.isDigit = true ∧ s0.isDigit = true ∧
      cString (formatTime H d H.RTCC_TIME_HMS).rtc.strOut =
        String.mk [h1, h0, ':', m1, m0, ':', s1, s0]) ∧
    (∃ h1 h0 m1 m0 : Char,
      h1.isDigit = true ∧ h0.isDigit = true ∧ m1.isDigit = true ∧ m0.isDigit = true ∧
      cString (formatTime H d H.RTCC_TIME_HM).rtc.strOut =
        String.mk [h1, h0, ':', m1, m0]) ∧
    (getTime d).rtc.hour ≤ 45 ∧ (getTime d).rtc.minute ≤ 85 ∧ (getTime d).rtc.sec ≤ 85 := by
  obtain ⟨_, _, gs, gm, gh⟩ := getTime_fields d
  have hhour : (getTime d).rtc.hour ≤ 45 := by
    rw [gh]; exact decoded_3f_le45 _ (toByte_lt _)
  have hminute : (getTime d).rtc.minute ≤ 85 := by
    rw [gm]; exact decoded_7f_le85 _ (toByte_lt _)
  have hsec : (getTime d).rtc.sec ≤ 85 := by
    rw [gs]; exact decoded_7f_le85 _ (toByte_lt _)
  have n1 := digitChar_ne_zero ((getTime d).rtc.hour / 10) (by omega)
  have n0 := digitChar_ne_zero ((getTime d).rtc.hour % 10) (by omega)
  have p1 := digitChar_ne_zero ((getTime d).rtc.minute / 10) (by omega)
  have p0 := digitChar_ne_zero ((getTime d).rtc.minute % 10) (by omega)
  have q1 := digitChar_ne_zero ((getTime d).rtc.sec / 10) (by omega)
  have q0 := digitChar_ne_zero ((getTime d).rtc.sec % 10) (by omega)
  refine ⟨⟨_, _, _, _, _, _,
      digitChar_isDigit ((getTime d).rtc.hour / 10) (by omega),
      digitChar_isDigit ((getTime d).rtc.hour % 10) (by omega),
      digitChar_isDigit ((getTime d).rtc.minute / 10) (by omega),
      digitChar_isDigit ((getTime d).rtc.minute % 10) (by omega),
      digitChar_isDigit ((getTime d).rtc.sec / 10) (by omega),
      digitChar_isDigit ((getTime d).rtc.sec % 10) (by omega), ?_⟩,
    ⟨_, _, _, _,
      digitChar_isDigit ((getTime d).rtc.hour / 10) (by omega),
      digitChar_isDigit ((getTime d).rtc.hour % 10) (by omega),
      digitChar_isDigit ((getTime d).rtc.minute / 10) (by omega),
      digitChar_isDigit ((getTime d).rtc.minute % 10) (by omega), ?_⟩,
    hhour, hminute, hsec⟩
  · rw [formatTime_strOut H d _ hbuf, if_neg (Ne.symm hlabels.time_labels),
      cString_terminated _ _ (by simp [n1, n0, p1, p0, q1, q0])]
    rfl
  · rw [formatTime_strOut H d _ hbuf, if_pos rfl,
      cString_terminated _ _ (by simp [n1, n0, p1, p0])]
    rfl

/-- C20 on a chip holding `0xFF` in the seconds, minutes and hours registers:
the strings are "45:85:85" and "45:85". -/
theorem formatTime_well_formed_witness :
    (∃ h1 h0 m1 m0 s1 s0 : Char,
      h1.isDigit = true ∧ h0.isDigit = true ∧ m1.isDigit = true ∧ m0.isDigit = true ∧
      s1.isDigit = true ∧ s0.isDigit = true ∧
      cString (formatTime pcf8563Header (devOf [0, 0, 0xFF, 0xFF, 0xFF])
        pcf8563Header.RTCC_TIME_HMS).rtc.strOut =
        String.mk [h1, h0, ':', m1, m0, ':', s1, s0]) ∧
    cString (formatTime pcf8563Header (devOf [0, 0, 0xFF, 0xFF, 0xFF])
      pcf8563Header.RTCC_TIME_HMS).rtc.strOut = "45:85:85" ∧
    cString (formatTime pcf8563Header (devOf [0, 0, 0xFF, 0xFF, 0xFF])
      pcf8563Header.RTCC_TIME_HM).rtc.strOut = "45:85" :=
  ⟨(formatTime_well_formed pcf8563Header (devOf [0, 0, 0xFF, 0xFF, 0xFF])
      ⟨by decide, by decide, by decide, by decide⟩ (by decide)).1,
    by decide, by decide⟩

end Rtc_Pcf8563
